import Mathlib

/-!
Verification development for the PartySnap notification dispatch and caching
service.  Each definition is a shallow embedding of a function of the
JavaScript source: the template engine (`templates.js`), the dispatch engine
(`NotificationService` in the notification-service module), the Supabase
helpers (`supabase.js`), the SQL policy procedure
(`fix_notification_preferences.sql`), the provider batch adapters
(`expo-push.js`, `fcm.js`), and the read-through cache layers
(`participants-cache.js`, `photo-url-cache.js`, `redis.js`).
External collaborators (the relational store, the Redis KV store, provider
SDK responses, URL/JWT parsing) are modelled as explicit oracle parameters.
JavaScript numbers appearing as counters/timestamps are modelled as `Nat`;
JavaScript objects with optional fields as structures with `Option` fields;
functions that can `throw` return `Except String`.
-/

namespace PartySnap

/-! ## Notification template engine (templates.js) -/

/-- The seven canonical notification types of `NOTIFICATION_TEMPLATES`. -/
inductive NotificationType where
  | photo_liked
  | gallery_unlocked
  | community_milestone
  | event_live
  | event_starting
  | event_reminder
  | peak_activity
deriving DecidableEq, Repr

/-- The JavaScript string naming each type. -/
def typeKey : NotificationType → String
  | .photo_liked => "photo_liked"
  | .gallery_unlocked => "gallery_unlocked"
  | .community_milestone => "community_milestone"
  | .event_live => "event_live"
  | .event_starting => "event_starting"
  | .event_reminder => "event_reminder"
  | .peak_activity => "peak_activity"

/-- The `data` object passed with a dispatch.  `none` models an absent
property (JavaScript `undefined`). -/
structure NotificationData where
  eventName : Option String := none
  likeCount : Option Nat := none
  milestone : Option Nat := none
  minutesUntilStart : Option Nat := none
  hoursUntilStart : Option Nat := none
  recentPhotoCount : Option Nat := none
  imageUrl : Option String := none
  eventId : Option String := none
  photoId : Option String := none
deriving DecidableEq, Repr

/-- Data fields that appear in the `required` table of
`validateNotificationData`. -/
inductive DataField where
  | eventName
  | likeCount
  | milestone
  | minutesUntilStart
  | hoursUntilStart
  | recentPhotoCount
deriving DecidableEq, Repr

def fieldName : DataField → String
  | .eventName => "eventName"
  | .likeCount => "likeCount"
  | .milestone => "milestone"
  | .minutesUntilStart => "minutesUntilStart"
  | .hoursUntilStart => "hoursUntilStart"
  | .recentPhotoCount => "recentPhotoCount"

/-- JavaScript truthiness of an optional string: absent, and the empty
string, are falsy. -/
def truthyStr : Option String → Bool
  | none => false
  | some s => !(s == "")

/-- JavaScript truthiness of an optional number: absent, and `0`, are
falsy. -/
def truthyNat : Option Nat → Bool
  | none => false
  | some n => !(n == 0)

/-- Truthiness of `data[field]`, as tested by `!data[field]` in
`validateNotificationData`. -/
def fieldTruthy (d : NotificationData) : DataField → Bool
  | .eventName => truthyStr d.eventName
  | .likeCount => truthyNat d.likeCount
  | .milestone => truthyNat d.milestone
  | .minutesUntilStart => truthyNat d.minutesUntilStart
  | .hoursUntilStart => truthyNat d.hoursUntilStart
  | .recentPhotoCount => truthyNat d.recentPhotoCount

/-- The `required` table of `validateNotificationData`. -/
def requiredFields : NotificationType → List DataField
  | .photo_liked => [.eventName, .likeCount]
  | .gallery_unlocked => [.eventName]
  | .community_milestone => [.eventName, .milestone]
  | .event_live => [.eventName]
  | .event_starting => [.eventName, .minutesUntilStart]
  | .event_reminder => [.eventName, .hoursUntilStart]
  | .peak_activity => [.eventName, .recentPhotoCount]

/-- `validateNotificationData(type, data)`: collects the required fields
whose value is falsy and throws when any is found. -/
def validateNotificationData (t : NotificationType) (d : NotificationData) :
    Except String Unit :=
  let missing := (requiredFields t).filter (fun f => !(fieldTruthy d f))
  if missing.isEmpty then
    .ok ()
  else
    .error ("Missing required data for " ++ typeKey t ++ ": " ++
      String.intercalate ", " (missing.map fieldName))

/-- JavaScript `x || dflt` on an optional number (`0` and absent fall back
to the default). -/
def orNat (o : Option Nat) (dflt : Nat) : Nat :=
  match o with
  | none => dflt
  | some n => if n == 0 then dflt else n

/-- JavaScript `x || dflt` on an optional string. -/
def orStr (o : Option String) (dflt : String) : String :=
  match o with
  | none => dflt
  | some s => if s == "" then dflt else s

/-- Title rule of each entry of `NOTIFICATION_TEMPLATES`. -/
def templateTitle (t : NotificationType) (d : NotificationData) : String :=
  match t with
  | .photo_liked =>
      let count := orNat d.likeCount 1
      if count ≥ 100 then "Your photo is on fire! 🔥"
      else if count ≥ 50 then "Your photo is trending! ⭐"
      else if count ≥ 20 then "Your photo is popular! 👏"
      else if count ≥ 10 then "People love your photo! ❤️"
      else "Someone liked your photo! 👍"
  | .gallery_unlocked => "Gallery unlocked! 📸"
  | .community_milestone =>
      toString (orNat d.milestone 100) ++ " photos milestone! 🎉"
  | .event_live => "Event is live! 🎉"
  | .event_starting => "Event starting soon! ⏰"
  | .event_reminder => "Don't forget your event! 📅"
  | .peak_activity => "Peak activity happening! ⚡"

/-- Body rule of each entry of `NOTIFICATION_TEMPLATES`. -/
def templateBody (t : NotificationType) (d : NotificationData) : String :=
  match t with
  | .photo_liked =>
      let count := orNat d.likeCount 1
      let eventName := orStr d.eventName "your event"
      if count ≥ 100 then toString count ++ " likes and counting at " ++ eventName ++ "!"
      else if count ≥ 50 then toString count ++ " people have liked your photo from " ++ eventName
      else if count ≥ 20 then toString count ++ " likes on your photo from " ++ eventName
      else if count ≥ 10 then toString count ++ " people liked your photo from " ++ eventName
      else "Your photo from " ++ eventName ++ " got a new like"
  | .gallery_unlocked =>
      "Photos from " ++ orStr d.eventName "your event" ++
        " are now available to view and download"
  | .community_milestone =>
      orStr d.eventName "your event" ++ " just reached " ++
        toString (orNat d.milestone 100) ++ " amazing photos shared by the community"
  | .event_live =>
      orStr d.eventName "Your event" ++ " has started! Start capturing and sharing memories"
  | .event_starting =>
      orStr d.eventName "Your event" ++ " starts in " ++
        toString (orNat d.minutesUntilStart 15) ++ " minutes. Get ready to capture memories!"
  | .event_reminder =>
      let hours := orNat d.hoursUntilStart 1
      orStr d.eventName "Your event" ++ " is in " ++ toString hours ++ " " ++
        (if hours == 1 then "hour" else "hours") ++ ". Make sure you're ready!"
  | .peak_activity =>
      toString (orNat d.recentPhotoCount 0) ++ " photos shared in the last hour at " ++
        orStr d.eventName "your event" ++ ". Join the action!"

/-- Fixed priority of each template. -/
def templatePriority : NotificationType → String
  | .photo_liked => "high"
  | .gallery_unlocked => "high"
  | .community_milestone => "medium"
  | .event_live => "high"
  | .event_starting => "high"
  | .event_reminder => "medium"
  | .peak_activity => "low"

/-- Fixed channel of each template. -/
def templateChannel : NotificationType → String
  | .photo_liked => "photo-likes"
  | .gallery_unlocked => "community"
  | .community_milestone => "community"
  | .event_live => "event-updates"
  | .event_starting => "event-updates"
  | .event_reminder => "event-updates"
  | .peak_activity => "peak-activity"

/-- A rendered notification, as produced by `buildNotification`. -/
structure RenderedNotification where
  ntype : String
  title : String
  body : String
  priority : String
  channel : String
deriving DecidableEq, Repr

/-- `buildNotification(type, data)`.  For each of the seven canonical types a
template exists so the unknown-type throw of the source is unreachable and
the function is total. -/
def buildNotification (t : NotificationType) (d : NotificationData) :
    RenderedNotification :=
  { ntype := typeKey t
    title := templateTitle t d
    body := templateBody t d
    priority := templatePriority t
    channel := templateChannel t }

/-- The `enabled` flag of `DEFAULT_SETTINGS[type]` (all seven types are
enabled by default). -/
def defaultEnabled : NotificationType → Bool
  | _ => true

/-- The `batchEnabled` flag of `DEFAULT_SETTINGS[type]`. -/
def defaultBatchEnabled : NotificationType → Bool
  | .photo_liked => true
  | .gallery_unlocked => false
  | .community_milestone => true
  | .event_live => false
  | .event_starting => false
  | .event_reminder => false
  | .peak_activity => true

/-! ## Preferences and the should-send policy
(supabase.js, fix_notification_preferences.sql) -/

/-- A row of `notification_preferences`.  Quiet-hour bounds are minutes
since midnight. -/
structure PrefsRow where
  photo_likes : Bool
  community_activity : Bool
  event_updates : Bool
  peak_activity : Bool
  batch_mode : Bool
  quiet_hours_enabled : Bool
  quiet_hours_start : Nat
  quiet_hours_end : Nat
  timezone : String
deriving DecidableEq, Repr

/-- The fallback object returned by `getUserNotificationPreferences` when the
select errors (row missing). -/
def jsDefaultPrefs : PrefsRow :=
  { photo_likes := true
    community_activity := true
    event_updates := true
    peak_activity := true
    batch_mode := false
    quiet_hours_enabled := true
    quiet_hours_start := 22 * 60
    quiet_hours_end := 7 * 60
    timezone := "UTC" }

/-- The column defaults of the `notification_preferences` table
(fix_notification_preferences.sql): the row inserted by the lazy-creation
branch of the stored procedure. -/
def sqlDefaultPrefs : PrefsRow :=
  { photo_likes := true
    community_activity := true
    event_updates := true
    peak_activity := true
    batch_mode := false
    quiet_hours_enabled := false
    quiet_hours_start := 22 * 60
    quiet_hours_end := 7 * 60
    timezone := "UTC" }

/-- `getUserNotificationPreferences(userId)`: the stored row, or the
JavaScript default object when the row is missing. -/
def getUserNotificationPreferences (row : Option PrefsRow) : PrefsRow :=
  row.getD jsDefaultPrefs

/-- The `should_send_notification` stored procedure
(fix_notification_preferences.sql): on a missing row it inserts a default
row and allows; otherwise it applies the quiet-hours window (which may cross
midnight) to the current time-of-day `nowTime` (minutes).  Returns the
updated row state and the boolean verdict. -/
def shouldSendNotificationRpc (row : Option PrefsRow) (nowTime : Nat) :
    Option PrefsRow × Bool :=
  match row with
  | none => (some sqlDefaultPrefs, true)
  | some p =>
    if p.quiet_hours_enabled then
      if p.quiet_hours_start < p.quiet_hours_end then
        if p.quiet_hours_start ≤ nowTime ∧ nowTime ≤ p.quiet_hours_end then
          (some p, false)
        else (some p, true)
      else
        if p.quiet_hours_start ≤ nowTime ∨ nowTime ≤ p.quiet_hours_end then
          (some p, false)
        else (some p, true)
    else (some p, true)

/-- `shouldSendNotification(userId)` (supabase.js): calls the stored
procedure and fails open (returns `true`, with no row creation) when the RPC
itself errors. -/
def shouldSendNotification (rpcFails : Bool) (row : Option PrefsRow)
    (nowTime : Nat) : Option PrefsRow × Bool :=
  if rpcFails then (row, true) else shouldSendNotificationRpc row nowTime

/-- JavaScript `type.replace('_', '')`: removes the first underscore only. -/
def stripFirstUnderscore (s : String) : String :=
  let rec go : List Char → List Char
    | [] => []
    | c :: cs => if c = '_' then cs else c :: go cs
  ⟨go s.data⟩

/-- Property access `preferences[name]` for the boolean preference columns;
`none` models `undefined`. -/
def prefsField (p : PrefsRow) (name : String) : Option Bool :=
  if name = "photo_likes" then some p.photo_likes
  else if name = "community_activity" then some p.community_activity
  else if name = "event_updates" then some p.event_updates
  else if name = "peak_activity" then some p.peak_activity
  else if name = "batch_mode" then some p.batch_mode
  else none

/-- `preferences[type.replace('_','')] ?? DEFAULT_SETTINGS[type]?.enabled ?? true`
from `sendNotification`. -/
def typeEnabledFor (p : PrefsRow) (t : NotificationType) : Bool :=
  (prefsField p (stripFirstUnderscore (typeKey t))).getD (defaultEnabled t)

/-! ## Rate limiting (NotificationService.isRateLimited / updateRateLimit) -/

/-- One entry of the in-memory `rateLimits` map. -/
structure RateEntry where
  count : Nat
  resetTime : Nat
deriving DecidableEq, Repr

/-- The `rateLimits` JavaScript `Map`, as an association list. -/
def RateMap := List (String × RateEntry)

def rlookup (m : RateMap) (key : String) : Option RateEntry :=
  List.lookup key m

/-- `Map.set`: replaces the binding for `key`. -/
def rset (m : RateMap) (key : String) (e : RateEntry) : RateMap :=
  (key, e) :: (List.filter (fun kv => !(kv.1 == key)) m)

/-- The key `${userId}:${type}`. -/
def rateKey (userId : String) (t : NotificationType) : String :=
  userId ++ ":" ++ typeKey t

/-- The `maxRequests` ceiling table, with its `default` of 5 per minute. -/
def maxRequests : NotificationType → Nat
  | .photo_liked => 10
  | .event_live => 1
  | .event_starting => 1
  | .community_milestone => 3
  | .peak_activity => 2
  | _ => 5

/-- `isRateLimited(userId, type)`.  When a stored entry's window has
expired, the source mutates that stored object in place (count reset, new
window), so the updated map is returned alongside the verdict.  The default
object built for a missing key is not stored. -/
def isRateLimited (m : RateMap) (now : Nat) (userId : String)
    (t : NotificationType) : RateMap × Bool :=
  let key := rateKey userId t
  let limit := maxRequests t
  match rlookup m key with
  | none => (m, decide (0 ≥ limit))
  | some e =>
    if now > e.resetTime then
      (rset m key ⟨0, now + 60000⟩, decide (0 ≥ limit))
    else
      (m, decide (e.count ≥ limit))

/-- `updateRateLimit(userId, type)`: restart the window at count 1 when it
has expired, otherwise increment; a missing key gets the default object
(count 0, fresh window) and is then incremented. -/
def updateRateLimit (m : RateMap) (now : Nat) (userId : String)
    (t : NotificationType) : RateMap :=
  let key := rateKey userId t
  match rlookup m key with
  | none => rset m key ⟨1, now + 60000⟩
  | some e =>
    if now > e.resetTime then rset m key ⟨1, now + 60000⟩
    else rset m key ⟨e.count + 1, e.resetTime⟩

/-! ## Device routing and provider buckets (NotificationService.sendToDevices) -/

/-- A `push_tokens` row as used by the dispatcher.  `device_token` and
`token_type` are optional columns (absent on rows read through
`getUserPushTokens`, which selects only token, platform, device_id). -/
structure PushToken where
  token : String
  platform : String
  device_token : Option String := none
  token_type : Option String := none
deriving DecidableEq, Repr

/-- The four provider buckets of `sendToDevices`. -/
inductive BucketCall where
  | expo
  | fcmV1
  | fcmLegacy
  | apns
deriving DecidableEq, Repr

/-- `s.startsWith(pre)` evaluated on the character lists (equivalent to
`String.startsWith` for these ASCII needles, and fully computable). -/
def strStartsWith (s pre : String) : Bool :=
  pre.data.isPrefixOf s.data

def isExpoToken (t : PushToken) : Bool :=
  strStartsWith t.token "ExponentPushToken"

def isAndroidV1 (t : PushToken) : Bool :=
  !isExpoToken t && t.platform == "android" &&
    (truthyStr t.device_token || t.token_type == some "fcm_v1")

def isAndroidLegacy (t : PushToken) : Bool :=
  !isExpoToken t && t.platform == "android" && !isAndroidV1 t

def isIos (t : PushToken) : Bool :=
  !isExpoToken t && t.platform == "ios"

/-- Result object of `sendBatchExpoPushNotifications` as consumed by
`sendToDevices` (`none` for the whole response models a thrown exception). -/
structure ExpoBatchRes where
  success : Bool
  successCount : Nat := 0
  failureCount : Nat := 0
  tokensToDeactivate : List String := []
deriving DecidableEq, Repr

/-- Per-token result entry of `sendBatchFCMv1Notifications`:
send success flag, token string, and whether the error string includes
`invalid-registration`. -/
structure FcmV1Item where
  success : Bool
  token : String
  errorInvalidReg : Bool
deriving DecidableEq, Repr

structure FcmV1Res where
  successCount : Nat
  failureCount : Nat
  results : List FcmV1Item
deriving DecidableEq, Repr

/-- Per-chunk counts of `sendBatchFCMNotifications`. -/
structure FcmLegacyChunk where
  successCount : Nat
  failureCount : Nat
deriving DecidableEq, Repr

structure FcmLegacyRes where
  success : Bool
  results : List FcmLegacyChunk
deriving DecidableEq, Repr

/-- Per-chunk result of `sendBatchAPNSNotifications`: counts plus the failed
devices whose error was `BadDeviceToken` or `Unregistered`. -/
structure ApnsChunk where
  successCount : Nat
  failureCount : Nat
  failedInvalidDevices : List String
deriving DecidableEq, Repr

structure ApnsRes where
  success : Bool
  results : List ApnsChunk
deriving DecidableEq, Repr

/-- Oracle for the four adapter batch calls; `none` models the adapter
throwing (caught per bucket by `sendToDevices`). -/
structure AdapterResponses where
  expo : Option ExpoBatchRes
  fcmV1 : Option FcmV1Res
  fcmLegacy : Option FcmLegacyRes
  apns : Option ApnsRes

/-- Aggregate of `sendToDevices`. -/
structure DeviceResults where
  total : Nat
  successful : Nat
  failed : Nat
  invalidTokens : List String
deriving DecidableEq, Repr

/-- `sendToDevices(tokens, notification)`: partition by token shape and
platform metadata, dispatch each nonempty bucket through its adapter, and
aggregate counts; a throw in one bucket only adds that bucket's size to
`failed`.  Also returns the list of adapters actually invoked. -/
def sendToDevices (tokens : List PushToken) (resp : AdapterResponses) :
    DeviceResults × List BucketCall :=
  let expoTokens := tokens.filter isExpoToken
  let androidV1Tokens := tokens.filter isAndroidV1
  let androidTokens := tokens.filter isAndroidLegacy
  let iosTokens := tokens.filter isIos
  let base : DeviceResults := ⟨tokens.length, 0, 0, []⟩
  let (r1, c1) :=
    if expoTokens.isEmpty then (base, ([] : List BucketCall))
    else
      match resp.expo with
      | none => ({ base with failed := base.failed + expoTokens.length }, [.expo])
      | some er =>
        if er.success then
          ({ base with
              successful := base.successful + er.successCount
              failed := base.failed + er.failureCount
              invalidTokens := base.invalidTokens ++ er.tokensToDeactivate }, [.expo])
        else ({ base with failed := base.failed + expoTokens.length }, [.expo])
  let (r2, c2) :=
    if androidV1Tokens.isEmpty then (r1, c1)
    else
      match resp.fcmV1 with
      | none => ({ r1 with failed := r1.failed + androidV1Tokens.length }, c1 ++ [.fcmV1])
      | some fr =>
        -- the source tests `if (fcmV1Result.successCount)`: zero is falsy
        if fr.successCount ≠ 0 then
          ({ r1 with
              successful := r1.successful + fr.successCount
              failed := r1.failed + fr.failureCount
              invalidTokens := r1.invalidTokens ++
                ((fr.results.filter (fun it => !it.success && it.errorInvalidReg)).map
                  (fun it => it.token)) }, c1 ++ [.fcmV1])
        else ({ r1 with failed := r1.failed + androidV1Tokens.length }, c1 ++ [.fcmV1])
  let (r3, c3) :=
    if androidTokens.isEmpty then (r2, c2)
    else
      match resp.fcmLegacy with
      | none => ({ r2 with failed := r2.failed + androidTokens.length }, c2 ++ [.fcmLegacy])
      | some fr =>
        if fr.success then
          ({ r2 with
              successful := r2.successful +
                (fr.results.map (fun b => b.successCount)).sum
              failed := r2.failed +
                (fr.results.map (fun b => b.failureCount)).sum }, c2 ++ [.fcmLegacy])
        else ({ r2 with failed := r2.failed + androidTokens.length }, c2 ++ [.fcmLegacy])
  let (r4, c4) :=
    if iosTokens.isEmpty then (r3, c3)
    else
      match resp.apns with
      | none => ({ r3 with failed := r3.failed + iosTokens.length }, c3 ++ [.apns])
      | some ar =>
        if ar.success then
          ({ r3 with
              successful := r3.successful +
                (ar.results.map (fun b => b.successCount)).sum
              failed := r3.failed +
                (ar.results.map (fun b => b.failureCount)).sum
              invalidTokens := r3.invalidTokens ++
                (ar.results.map (fun b => b.failedInvalidDevices)).flatten }, c3 ++ [.apns])
        else ({ r3 with failed := r3.failed + iosTokens.length }, c3 ++ [.apns])
  (r4, c4)

/-! ## The dispatch engine (NotificationService.sendNotification) -/

/-- A `notification_history` row as submitted by `logNotificationHistory`
(the `status` column is hard-coded to `sent` at insert time). -/
structure HistoryRow where
  userId : String
  ntype : String
  title : String
  body : String
  status : String
deriving DecidableEq, Repr

/-- Mutable state visible to one dispatch call: the user's preference row,
the in-memory rate-limit map, and the submitted history rows. -/
structure DispatchState where
  prefsRow : Option PrefsRow
  rateMap : RateMap
  history : List HistoryRow

/-- Environment of one dispatch call: whether the policy RPC errors, the
current time-of-day (minutes, for quiet hours), the current epoch
milliseconds (for rate windows), the user's active tokens, and the adapter
responses. -/
structure DispatchEnv where
  rpcFails : Bool
  nowTime : Nat
  now : Nat
  tokens : List PushToken
  responses : AdapterResponses

/-- The structured result object of `sendNotification`. -/
structure SendOutcome where
  success : Bool
  reason : Option String := none
  error : Option String := none
  devicesReached : Option Nat := none
deriving DecidableEq, Repr

structure DispatchResult where
  outcome : SendOutcome
  state : DispatchState
  providerCalls : List BucketCall

/-- `NotificationService.sendNotification(userId, type, data)`.
Validation throws are caught by the function's outer catch and surface as
`{success:false, error}`.  The batching branch is not modelled because the
source's `checkBatching` unconditionally returns `false`.  The history row
is always submitted with status `sent` before the success return. -/
def sendNotification (env : DispatchEnv) (st : DispatchState)
    (userId : String) (t : NotificationType) (d : NotificationData) :
    DispatchResult :=
  match validateNotificationData t d with
  | .error msg => ⟨{ success := false, error := some msg }, st, []⟩
  | .ok _ =>
    let rc := shouldSendNotification env.rpcFails st.prefsRow env.nowTime
    let st1 := { st with prefsRow := rc.1 }
    if !rc.2 then
      ⟨{ success := false, reason := some "user_preferences" }, st1, []⟩
    else
      let preferences := getUserNotificationPreferences rc.1
      if !typeEnabledFor preferences t then
        ⟨{ success := false, reason := some "type_disabled" }, st1, []⟩
      else
        let rl := isRateLimited st1.rateMap env.now userId t
        let st2 := { st1 with rateMap := rl.1 }
        if rl.2 then
          ⟨{ success := false, reason := some "rate_limited" }, st2, []⟩
        else if env.tokens.length = 0 then
          ⟨{ success := false, reason := some "no_tokens" }, st2, []⟩
        else
          let notification := buildNotification t d
          let sd := sendToDevices env.tokens env.responses
          let row : HistoryRow :=
            { userId := userId
              ntype := notification.ntype
              title := notification.title
              body := notification.body
              status := "sent" }
          let st3 := { st2 with
            history := st2.history ++ [row]
            rateMap := updateRateLimit st2.rateMap env.now userId t }
          ⟨{ success := true, devicesReached := some sd.1.successful }, st3, sd.2⟩

/-! ## Provider batch adapters (expo-push.js, fcm.js) -/

/-- Chunking worker, structurally recursive on a fuel bound (any fuel at
least the list length yields the full chunking; `chunkList` passes the
length itself). -/
def chunkListGo (n : Nat) : Nat → List α → List (List α)
  | _, [] => []
  | 0, _ :: _ => []
  | fuel + 1, l@(_ :: _) => l.take n :: chunkListGo n fuel (l.drop n)

/-- Split a list into consecutive chunks of at most `n` elements
(`expo.chunkPushNotifications`, the FCM 500-token batching, and the
20-path sub-batches of the URL generator). -/
def chunkList (n : Nat) (l : List α) : List (List α) :=
  if n == 0 then [] else chunkListGo n l.length l

/-- Status of one Expo push ticket for one message. -/
inductive TicketStatus where
  | ok
  | errorDeviceNotRegistered
  | errorOther
deriving DecidableEq, Repr

/-- Environment of the Expo batch adapter: the SDK's token-format check,
the per-message ticket returned by the push service, and whether sending
chunk `i` throws. -/
structure ExpoEnv where
  isExpoPushToken : String → Bool
  ticketOf : String → TicketStatus
  chunkThrows : Nat → Bool

/-- Running aggregate of the ticket loop of
`sendBatchExpoPushNotifications`. -/
structure ExpoAgg where
  successCount : Nat
  failureCount : Nat
  tokensToDeactivate : List String
deriving DecidableEq, Repr

/-- The per-ticket loop body: `ok` tickets count as successes; error
tickets count as failures and, when the error is `DeviceNotRegistered`, the
corresponding token (recovered in the source by object-identity `findIndex`
into the messages array, which resolves to this message's own index) is
queued for deactivation. -/
def processTickets (ticketOf : String → TicketStatus) (acc : ExpoAgg) :
    List String → ExpoAgg
  | [] => acc
  | tok :: rest =>
    match ticketOf tok with
    | .ok => processTickets ticketOf { acc with successCount := acc.successCount + 1 } rest
    | .errorDeviceNotRegistered =>
        processTickets ticketOf
          { acc with
              failureCount := acc.failureCount + 1
              tokensToDeactivate := acc.tokensToDeactivate ++ [tok] } rest
    | .errorOther =>
        processTickets ticketOf { acc with failureCount := acc.failureCount + 1 } rest

/-- The chunk loop: a throw while sending chunk `i` adds the whole chunk to
the failure count and deactivates nothing from it. -/
def processChunks (en : ExpoEnv) (acc : ExpoAgg) (i : Nat) :
    List (List String) → ExpoAgg
  | [] => acc
  | c :: cs =>
    let acc2 :=
      if en.chunkThrows i then { acc with failureCount := acc.failureCount + c.length }
      else processTickets en.ticketOf acc c
    processChunks en acc2 (i + 1) cs

/-- Return object of `sendBatchExpoPushNotifications` (flattening the
nested `results`). -/
structure ExpoBatchReturn where
  success : Bool
  error : Option String := none
  successCount : Nat := 0
  failureCount : Nat := 0
  invalidCount : Nat := 0
  tokensToDeactivate : List String := []
deriving DecidableEq, Repr

/-- `sendBatchExpoPushNotifications(tokens, notification, data)`: tokens
failing the Expo format check are filtered out up front (counted in
`invalidCount` only); the valid tokens are sent in chunks of 100 and their
tickets tallied. -/
def sendBatchExpoPushNotifications (en : ExpoEnv) (tokens : List String) :
    ExpoBatchReturn :=
  let validTokens := tokens.filter en.isExpoPushToken
  let invalidTokens := tokens.filter (fun tok => !en.isExpoPushToken tok)
  if validTokens.isEmpty then
    { success := false, error := some "No valid Expo push tokens provided" }
  else
    let agg := processChunks en ⟨0, 0, []⟩ 0 (chunkList 100 validTokens)
    { success := true
      successCount := agg.successCount
      failureCount := agg.failureCount
      invalidCount := invalidTokens.length
      tokensToDeactivate := agg.tokensToDeactivate }

/-- Environment of the legacy FCM batch adapter: the per-token multicast
verdict of the SDK (`response.responses` is parallel to the chunk, with
`successCount`/`failureCount` its tallies), and whether the `sendMulticast`
call for chunk `i` throws. -/
structure FcmEnv where
  sendOk : String → Bool
  chunkThrows : Nat → Bool

/-- The chunk loop of `sendBatchFCMNotifications`; a throw aborts the
remaining chunks (the exception reaches the outer catch). -/
def fcmChunksGo (en : FcmEnv) (i : Nat) :
    List (List String) → Except String (List FcmLegacyChunk)
  | [] => .ok []
  | c :: cs =>
    if en.chunkThrows i then .error "sendMulticast failed"
    else
      match fcmChunksGo en (i + 1) cs with
      | .ok rest =>
          .ok ({ successCount := c.countP en.sendOk
                 failureCount := c.countP (fun tok => !en.sendOk tok) } :: rest)
      | .error e => .error e

/-- `sendBatchFCMNotifications(tokens, notification, data)`: chunks of 500;
invalid-registration tokens are only logged in the source (`TODO`), so no
token is marked for deactivation by this adapter. -/
def sendBatchFCMNotifications (en : FcmEnv) (tokens : List String) :
    FcmLegacyRes :=
  match fcmChunksGo en 0 (chunkList 500 tokens) with
  | .ok rs => { success := true, results := rs }
  | .error _ => { success := false, results := [] }

/-- Tokens the legacy FCM batch adapter marks for deactivation: none (the
deactivation branch is a logged `TODO` in the source). -/
def fcmTokensMarkedForDeactivation (_en : FcmEnv) (_tokens : List String) :
    List String := []

/-! ## KV cache primitives (redis.js) -/

/-- A record as written by `setWithAutoExpiry`: the payload together with
its `cached_at` / `expires_at` stamps (epoch milliseconds). -/
structure CacheRec (α : Type) where
  value : α
  cached_at : Nat
  expires_at : Nat
deriving DecidableEq, Repr

/-- The KV store contents, as an association list keyed by cache key. -/
def KvStore (α : Type) := List (String × CacheRec α)

/-- `getCachedData(key)`: the raw stored record, with no expiry check. -/
def kvLookup (kv : KvStore α) (key : String) : Option (CacheRec α) :=
  List.lookup key kv

/-- `getWithAge(key)`: `none` when the key is missing or the record has no
`cached_at`; otherwise the record paired with its `is_expired` flag
(`cache_ttl` is floored to whole seconds, so the record is already expired
during the last partial second before `expires_at`). -/
def getWithAge (kv : KvStore α) (key : String) (now : Nat) :
    Option (CacheRec α × Bool) :=
  match kvLookup kv key with
  | none => none
  | some r =>
    if r.cached_at = 0 then none
    else some (r, decide (r.expires_at < now + 1000))

/-! ## Participants read-through cache (participants-cache.js) -/

/-- The structured result of a cache-layer read (the flags spread onto the
payload by the source). -/
structure CacheReadResult (α : Type) where
  value : α
  cached : Bool
  stale : Bool := false
  warning : Option String := none
  cache_source : String
deriving DecidableEq, Repr

/-- The key `participants:{eventId}:page:{page}:{limit}`. -/
def participantsCacheKey (eventId : String) (page limit : Nat) : String :=
  "participants:" ++ eventId ++ ":page:" ++ toString page ++ ":" ++ toString limit

/-- The fresh-cache probe of the read path: a stored, unexpired record,
unless a refresh is forced. -/
def freshCacheHit (kv : KvStore α) (key : String) (now : Nat)
    (forceRefresh : Bool) : Option (CacheRec α) :=
  if forceRefresh then none
  else
    match getWithAge kv key now with
    | some (r, false) => some r
    | _ => none

/-- `getEventParticipants(eventId, options)`.  `db` is the outcome of
`fetchParticipantsFromDatabase` (the only throwing operation inside the
`try`); cache write-backs do not affect the returned value and are not
represented.  Parameter validation throws before the `try`, so it is never
caught by the stale fallback. -/
def getEventParticipants (kv : KvStore α) (db : Except String α) (now : Nat)
    (eventId : String) (page limit : Nat) (forceRefresh : Bool) :
    Except String (CacheReadResult α) :=
  if eventId = "" || page < 1 || limit < 1 || limit > 100 then
    .error "Invalid parameters"
  else
    let key := participantsCacheKey eventId page limit
    match freshCacheHit kv key now forceRefresh with
    | some r => .ok { value := r.value, cached := true, cache_source := "redis" }
    | none =>
      match db with
      | .ok payload =>
          .ok { value := payload, cached := false, cache_source := "database" }
      | .error e =>
        match kvLookup kv key with
        | some r =>
            .ok { value := r.value
                  cached := true
                  stale := true
                  warning := some "Serving cached data due to temporary database issues"
                  cache_source := "stale_redis" }
        | none => .error e

/-! ## Photo URL cache (photo-url-cache.js) -/

/-- The `events` row fetched for the cache key: creator, moderation flag,
and the joined `event_organizers` rows as (user_id, status) pairs. -/
structure EventRow where
  created_by : String
  require_moderation : Bool
  organizers : List (String × String)
deriving DecidableEq, Repr

/-- A `photos` row (fields relevant to moderation filtering and URL
enrichment). -/
structure Photo where
  id : Nat
  photo_url : String
  moderation_status : String
deriving DecidableEq, Repr

/-- Whether `userId` counts as organizer of the event (creator, or an
`event_organizers` entry with status `active`). -/
def isOrganizerOf (e : EventRow) (u : String) : Bool :=
  u == e.created_by || e.organizers.any (fun o => o.1 == u && o.2 == "active")

/-- The `userRole` cache-key segment: `anonymous` for a falsy `userId`,
otherwise `organizer` or `participant`. -/
def userRoleOf (e : EventRow) (userId : Option String) : String :=
  if !truthyStr userId then "anonymous"
  else if isOrganizerOf e (userId.getD "") then "organizer"
  else "participant"

/-- The `moderationMode` cache-key segment. -/
def moderationModeOf (e : EventRow) : String :=
  if e.require_moderation then "moderated" else "unmoderated"

/-- The event-level cache key
`event_photos:{eventId}:{sortBy}:{userRole}:{moderationMode}:{page}:{limit}`. -/
def photoCacheKey (eventId sortBy role mode : String) (page limit : Nat) :
    String :=
  "event_photos:" ++ eventId ++ ":" ++ sortBy ++ ":" ++ role ++ ":" ++ mode ++
    ":" ++ toString page ++ ":" ++ toString limit

/-- The moderation filter applied at query level by `fetchEventPhotos`. -/
def moderationKeeps (requireModeration isOrganizer : Bool) (p : Photo) : Bool :=
  if requireModeration then
    if isOrganizer then
      p.moderation_status == "approved" || p.moderation_status == "pending" ||
        p.moderation_status == "pending_approval"
    else p.moderation_status == "approved"
  else !(p.moderation_status == "deleted")

/-- Result of `fetchEventPhotos`, together with the inclusive row range the
relational query was issued with (`none` when the most-liked ceiling
short-circuits before any query). -/
structure FetchPhotosResult where
  photos : List Photo
  totalCount : Nat
  queriedRange : Option (Nat × Nat)
deriving DecidableEq, Repr

/-- Inclusive slice `range(a, b)` of an ordered result set. -/
def rangeSlice (l : List α) (a b : Nat) : List α :=
  (l.drop a).take (b + 1 - a)

/-- `fetchEventPhotos(eventId, page, limit, userId, sortBy, event)` over
`rows`, this event's `photos` rows (photo_type `event`) in the order the
store returns for the requested sort.  For `most_liked` the result set is
capped at 200: an offset at or past the cap returns an empty page without
issuing a query, the query range is clamped to row 199, and the reported
total is `min(count, 200)`. -/
def fetchEventPhotos (rows : List Photo) (page limit : Nat) (sortBy : String)
    (requireModeration isOrganizer : Bool) : FetchPhotosResult :=
  let offset := (page - 1) * limit
  let filtered := rows.filter (moderationKeeps requireModeration isOrganizer)
  if sortBy == "most_liked" then
    let maxPhotos := 200
    if offset ≥ maxPhotos then
      { photos := [], totalCount := maxPhotos, queriedRange := none }
    else
      let safeEnd := min (offset + limit - 1) (maxPhotos - 1)
      { photos := rangeSlice filtered offset safeEnd
        totalCount := min filtered.length maxPhotos
        queriedRange := some (offset, safeEnd) }
  else
    { photos := rangeSlice filtered offset (offset + limit - 1)
      totalCount := filtered.length
      queriedRange := some (offset, offset + limit - 1) }

/-! ## Batched signed-URL generation (photo-url-cache.js) -/

/-- Characters the cache-key sanitizer keeps (`[a-zA-Z0-9.\-_/]`). -/
def isCleanChar (c : Char) : Bool :=
  c.isAlphanum || c == '.' || c == '-' || c == '_' || c == '/'

/-- `cleanPath(path)`: every other character becomes `_`. -/
def cleanPath (p : String) : String :=
  ⟨p.data.map (fun c => if isCleanChar c then c else '_')⟩

/-- A per-path record cached under `photo_urls:{cleanPath}`. -/
structure UrlCacheRec where
  path : String
  signed_url : String
  expires_at : Nat
deriving DecidableEq, Repr

/-- Environment of the URL generator: the storage provider's
`createSignedUrl` (an `error` models both an error result and a thrown
exception — the source treats them identically), the per-path URL cache,
and the current epoch milliseconds. -/
structure SignEnv where
  sign : String → Except String String
  urlKv : List (String × UrlCacheRec)
  now : Nat

/-- Per-path loop body of `generateSignedUrlsBatch`: a failing path is
logged and omitted from the result map; it never aborts its siblings
(per-path catch combined with `Promise.allSettled`). -/
def generateChunk (sign : String → Except String String) :
    List String → List (String × String)
  | [] => []
  | p :: ps =>
    match sign p with
    | .ok u => (p, u) :: generateChunk sign ps
    | .error _ => generateChunk sign ps

/-- `generateSignedUrlsBatch(photoPaths, expiresIn, userId)`: the paths are
processed in sub-batches of 20. -/
def generateSignedUrlsBatch (sign : String → Except String String)
    (paths : List String) : List (String × String) :=
  ((chunkList 20 paths).map (generateChunk sign)).flatten

/-- The fresh-cache probe of `batchGenerateSignedUrls`: the cached record
must exist and its `expires_at` be truthy and in the future. -/
def urlCacheFresh (en : SignEnv) (p : String) : Option String :=
  match List.lookup ("photo_urls:" ++ cleanPath p) en.urlKv with
  | some r =>
    if r.expires_at ≠ 0 ∧ en.now < r.expires_at then some r.signed_url else none
  | none => none

/-- JavaScript `Math.round((c / n) * 100)` on naturals (`n > 0`). -/
def jsRoundPct (c n : Nat) : Nat :=
  (200 * c + n) / (2 * n)

/-- Return object of `batchGenerateSignedUrls`. -/
structure BatchUrlsResult where
  urls : List (String × String)
  cached_count : Nat
  generated_count : Nat
  total_count : Nat
  cache_hit_rate : Nat
  expires_in : Nat
deriving DecidableEq, Repr

/-- `batchGenerateSignedUrls(photoPaths, options)`: input validation throws
before any I/O; then the fresh-cached subset is served from the per-path
cache and only the rest is generated.  Cache write-backs do not affect the
returned value and are not represented. -/
def batchGenerateSignedUrls (en : SignEnv) (paths : List String)
    (expiresIn : Nat) (forceRefresh : Bool) : Except String BatchUrlsResult :=
  if paths.isEmpty then .error "Invalid photo paths array"
  else if paths.length > 100 then .error "Too many URLs requested. Max: 100"
  else if expiresIn > 86400 then .error "Expiry too long. Max: 86400 seconds"
  else
    let cachedUrls :=
      if forceRefresh then []
      else paths.filterMap (fun p => (urlCacheFresh en p).map (fun u => (p, u)))
    let pathsToGenerate :=
      if forceRefresh then paths
      else paths.filter (fun p => (urlCacheFresh en p).isNone)
    let newUrls := generateSignedUrlsBatch en.sign pathsToGenerate
    let allUrls := cachedUrls ++ newUrls
    .ok { urls := allUrls
          cached_count := cachedUrls.length
          generated_count := newUrls.length
          total_count := allUrls.length
          cache_hit_rate := jsRoundPct cachedUrls.length paths.length
          expires_in := expiresIn }

/-! ## Event-level photo URL read (getEventPhotoUrls) -/

/-- The payload cached at the event level and served by
`getEventPhotoUrls`. -/
structure PhotoPayload where
  photos : List Photo
  urls : List (String × String)
  total_count : Nat
  page : Nat
  total_pages : Nat
deriving DecidableEq, Repr

structure PhotoUrlsRead where
  payload : PhotoPayload
  cached : Bool
  source : String
deriving DecidableEq, Repr

/-- The `validUserId` sanitization of `fetchEventPhotos`. -/
def validUserIdOf (userId : Option String) : Option String :=
  match userId with
  | some u => if u ≠ "" ∧ u ≠ "undefined" then some u else none
  | none => none

/-- Environment of one `getEventPhotoUrls` call.  `eventRow` is the initial
`events` select (its failure throws immediately); `photoTable` is this
event's `photos` rows in requested sort order, or a relational-store
failure; `extractPath` is an oracle for the URL-regex `extractStoragePath`;
`urlLooksExpired` is an oracle for the embedded-JWT expiry probe run on
cached URLs. -/
structure PhotoUrlEnv where
  eventRow : Except String EventRow
  photoTable : Except String (List Photo)
  eventKv : KvStore PhotoPayload
  signEnv : SignEnv
  extractPath : String → Option String
  urlLooksExpired : String → Bool
  now : Nat

/-- The `VALID_SORT_MODES` validation: anything else falls back to
`most_liked`. -/
def validatedSort (sortBy : String) : String :=
  if sortBy == "most_liked" || sortBy == "newest" then sortBy else "most_liked"

/-- The event-level cache probe of `getEventPhotoUrls`: an unexpired stored
record is still rejected when any cached URL fails the embedded-expiry
probe. -/
def photoEventCacheHit (env : PhotoUrlEnv) (key : String)
    (forceRefresh : Bool) : Option PhotoPayload :=
  if forceRefresh then none
  else
    match getWithAge env.eventKv key env.now with
    | some (r, false) =>
      if r.value.urls.any (fun pu => env.urlLooksExpired pu.2) then none
      else some r.value
    | _ => none

/-- `getEventPhotoUrls(eventId, options)`.  The catch block of the source
logs and rethrows, so a relational-store failure after the cache miss
propagates to the caller — there is no stale fallback in this layer. -/
def getEventPhotoUrls (env : PhotoUrlEnv) (eventId : String)
    (page limit : Nat) (forceRefresh : Bool) (expiresIn : Nat)
    (userId : Option String) (sortBy : String) :
    Except String PhotoUrlsRead :=
  let validatedSortBy := validatedSort sortBy
  match env.eventRow with
  | .error e => .error ("Failed to fetch event " ++ eventId ++ ": " ++ e)
  | .ok event =>
    let role := userRoleOf event userId
    let mode := moderationModeOf event
    let key := photoCacheKey eventId validatedSortBy role mode page limit
    match photoEventCacheHit env key forceRefresh with
    | some payload => .ok { payload := payload, cached := true, source := "event_cache" }
    | none =>
      match env.photoTable with
      | .error e => .error e
      | .ok rows =>
        let isOrg :=
          match validUserIdOf userId with
          | none => false
          | some u => isOrganizerOf event u
        let fr := fetchEventPhotos rows page limit validatedSortBy
          event.require_moderation isOrg
        if fr.photos.isEmpty then
          .ok { payload := { photos := [], urls := [], total_count := 0
                             page := page, total_pages := 0 }
                cached := false, source := "database_empty" }
        else
          let photoPaths :=
            (fr.photos.filterMap (fun ph => env.extractPath ph.photo_url)).filter
              (fun p => !(p.trim == ""))
          if photoPaths.isEmpty then
            .ok { payload := { photos := fr.photos, urls := []
                               total_count := fr.totalCount, page := page
                               total_pages := (fr.totalCount + limit - 1) / limit }
                  cached := false, source := "no_valid_paths" }
          else
            match batchGenerateSignedUrls env.signEnv photoPaths expiresIn forceRefresh with
            | .error e => .error e
            | .ok urlResult =>
              let enriched := fr.photos.map (fun ph =>
                match env.extractPath ph.photo_url with
                | some p =>
                  match List.lookup p urlResult.urls with
                  | some u => { ph with photo_url := u }
                  | none => ph
                | none => ph)
              .ok { payload := { photos := enriched, urls := urlResult.urls
                                 total_count := fr.totalCount, page := page
                                 total_pages := (fr.totalCount + limit - 1) / limit }
                    cached := false, source := "database_with_generated_urls" }

/-! ## General lemmas about the embedding -/

instance {ε α : Type} [DecidableEq ε] [DecidableEq α] :
    DecidableEq (Except ε α) := fun x y =>
  match x, y with
  | .ok a, .ok b => decidable_of_iff (a = b) (by simp)
  | .ok _, .error _ => .isFalse (by simp)
  | .error _, .ok _ => .isFalse (by simp)
  | .error e, .error f => decidable_of_iff (e = f) (by simp)

/-- No canonical type's key, with its first underscore removed, matches a
preference column, so the `??` chain always lands on the default and every
type is treated as enabled, whatever the stored row says. -/
theorem typeEnabledFor_eq_true (p : PrefsRow) (t : NotificationType) :
    typeEnabledFor p t = true := by
  cases t <;> rfl

/-- Every rate ceiling is at least one per window. -/
theorem maxRequests_pos (t : NotificationType) : 1 ≤ maxRequests t := by
  cases t <;> simp [maxRequests]

theorem getWithAge_lookup {kv : KvStore α} {key : String} {now : Nat}
    {r : CacheRec α} {b : Bool} (h : getWithAge kv key now = some (r, b)) :
    kvLookup kv key = some r := by
  unfold getWithAge at h
  cases hkv : kvLookup kv key with
  | none => rw [hkv] at h; exact absurd h (by simp)
  | some r2 =>
    rw [hkv] at h
    by_cases hc : r2.cached_at = 0
    · simp [hc] at h
    · simp [hc] at h
      rw [h.1]

/-! ## Claim C6 — template validation and rendering -/

/-- C6 counterexample: in `validateNotificationData` the presence test is
JavaScript truthiness (`!data[field]`), so a `photo_liked` payload whose
required fields are both present but whose `likeCount` is `0` is rejected,
although the claim says rendering with all required fields present never
raises. -/
theorem validate_present_falsy_counterexample :
    (({ eventName := some "Summer Party", likeCount := some 0 } :
        NotificationData).eventName).isSome = true ∧
    (({ eventName := some "Summer Party", likeCount := some 0 } :
        NotificationData).likeCount).isSome = true ∧
    validateNotificationData .photo_liked
      { eventName := some "Summer Party", likeCount := some 0 } ≠ .ok () := by
  decide

/-- C6 amended: for each of the seven types, validation succeeds — and
rendering is total — whenever every required field carries a truthy
(non-empty, non-zero) value; a required field that is missing *or falsy*
always makes validation throw, and a validation throw means the dispatcher
performs no provider call and writes no history. -/
theorem validate_truthy_fields_amended (t : NotificationType)
    (d : NotificationData) :
    ((∀ f ∈ requiredFields t, fieldTruthy d f = true) →
      validateNotificationData t d = .ok () ∧
      (buildNotification t d).ntype = typeKey t) ∧
    (∀ f ∈ requiredFields t, fieldTruthy d f = false →
      ∃ msg, validateNotificationData t d = .error msg) ∧
    (∀ msg, validateNotificationData t d = .error msg →
      ∀ env st userId,
        (sendNotification env st userId t d).providerCalls = [] ∧
        (sendNotification env st userId t d).state.history = st.history) := by
  refine ⟨?_, ?_, ?_⟩
  · intro h
    refine ⟨?_, rfl⟩
    unfold validateNotificationData
    have hf : (requiredFields t).filter (fun f => !(fieldTruthy d f)) = [] := by
      rw [List.filter_eq_nil_iff]
      intro f hfm
      simp [h f hfm]
    simp [hf]
  · intro f hfm hft
    unfold validateNotificationData
    have hne : (requiredFields t).filter (fun f => !(fieldTruthy d f)) ≠ [] := by
      intro h0
      rw [List.filter_eq_nil_iff] at h0
      have := h0 f hfm
      simp [hft] at this
    rcases hmem : (requiredFields t).filter (fun f => !(fieldTruthy d f)) with
      _ | ⟨f0, rest⟩
    · exact absurd hmem hne
    · simp [hmem]
  · intro msg hmsg env st userId
    unfold sendNotification
    rw [hmsg]
    exact ⟨rfl, rfl⟩

/-- Witness for C6: concrete truthy data validates (and renders); omitting
`likeCount` makes validation throw. -/
theorem validate_truthy_fields_witness :
    (validateNotificationData .photo_liked
        { eventName := some "Summer Party", likeCount := some 15 } = .ok () ∧
      (buildNotification .photo_liked
        { eventName := some "Summer Party", likeCount := some 15 }).ntype =
        "photo_liked") ∧
    ∃ msg, validateNotificationData .photo_liked
      { eventName := some "Summer Party" } = .error msg :=
  ⟨(validate_truthy_fields_amended .photo_liked
      { eventName := some "Summer Party", likeCount := some 15 }).1 (by decide),
   (validate_truthy_fields_amended .photo_liked
      { eventName := some "Summer Party" }).2.1 .likeCount (by decide) (by decide)⟩

/-! ## Claim C7 — the 200-photo ceiling of the most-liked sort -/

/-- C7: under the `most_liked` sort the reported total never exceeds 200
(it is `min(count, 200)` on a queried page and the ceiling itself on a
short-circuited page), a page whose offset reaches 200 returns an empty
photo list without issuing any query, and a queried range never extends
past row 199. -/
theorem most_liked_cap (rows : List Photo) (page limit : Nat)
    (reqMod isOrg : Bool) :
    (fetchEventPhotos rows page limit "most_liked" reqMod isOrg).totalCount ≤ 200 ∧
    ((page - 1) * limit ≥ 200 →
      (fetchEventPhotos rows page limit "most_liked" reqMod isOrg).photos = [] ∧
      (fetchEventPhotos rows page limit "most_liked" reqMod isOrg).queriedRange
        = none) ∧
    (∀ a b,
      (fetchEventPhotos rows page limit "most_liked" reqMod isOrg).queriedRange
        = some (a, b) → b ≤ 199) := by
  unfold fetchEventPhotos
  by_cases h : (page - 1) * limit ≥ 200
  · simp [h]
  · simp [h]

/-- Witness for C7: page 5 at limit 50 (offset 200) over a single approved
photo returns the empty page without a query, and page 1 reports a total of
at most 200. -/
theorem most_liked_cap_witness :
    (fetchEventPhotos [⟨1, "photos/a.jpg", "approved"⟩] 5 50 "most_liked"
      false false).photos = [] ∧
    (fetchEventPhotos [⟨1, "photos/a.jpg", "approved"⟩] 5 50 "most_liked"
      false false).queriedRange = none ∧
    (fetchEventPhotos [⟨1, "photos/a.jpg", "approved"⟩] 1 50 "most_liked"
      false false).totalCount ≤ 200 :=
  ⟨((most_liked_cap [⟨1, "photos/a.jpg", "approved"⟩] 5 50 false false).2.1
      (by decide)).1,
   ((most_liked_cap [⟨1, "photos/a.jpg", "approved"⟩] 5 50 false false).2.1
      (by decide)).2,
   (most_liked_cap [⟨1, "photos/a.jpg", "approved"⟩] 1 50 false false).1⟩

/-! ## Claim C5 — role/moderation segmentation of the photo cache key -/

theorem userRoleOf_mem (e : EventRow) (u : Option String) :
    userRoleOf e u ∈ (["anonymous", "organizer", "participant"] : List String) := by
  unfold userRoleOf
  split_ifs <;> simp

theorem role_data_append_ne {r1 r2 : String}
    (h1 : r1 ∈ (["anonymous", "organizer", "participant"] : List String))
    (h2 : r2 ∈ (["anonymous", "organizer", "participant"] : List String))
    (hne : r1 ≠ r2) (s : List Char) : r1.data ++ s ≠ r2.data ++ s := by
  intro h
  fin_cases h1 <;> fin_cases h2 <;>
    first
      | exact hne rfl
      | simp at h

/-- Two keys that agree on event, sort, moderation mode and pagination but
differ in the role segment are distinct strings. -/
theorem photoCacheKey_role_ne (eventId sortBy mode : String)
    (page limit : Nat) {r1 r2 : String}
    (h1 : r1 ∈ (["anonymous", "organizer", "participant"] : List String))
    (h2 : r2 ∈ (["anonymous", "organizer", "participant"] : List String))
    (hne : r1 ≠ r2) :
    photoCacheKey eventId sortBy r1 mode page limit ≠
      photoCacheKey eventId sortBy r2 mode page limit := by
  intro h
  have hd := congrArg String.data h
  simp only [photoCacheKey, String.data_append, List.append_assoc] at hd
  have hd2 := List.append_cancel_left (List.append_cancel_left
    (List.append_cancel_left (List.append_cancel_left
      (List.append_cancel_left hd))))
  exact role_data_append_ne h1 h2 hne _ hd2

/-- A positive event-level cache probe comes from the stored record at
exactly the probed key. -/
theorem photoEventCacheHit_some {env : PhotoUrlEnv} {key : String}
    {p : PhotoPayload} (h : photoEventCacheHit env key false = some p) :
    ∃ rec, kvLookup env.eventKv key = some rec ∧ p = rec.value := by
  unfold photoEventCacheHit at h
  simp only [Bool.false_eq_true, if_false] at h
  cases hga : getWithAge env.eventKv key env.now with
  | none => rw [hga] at h; simp at h
  | some rb =>
    obtain ⟨rec, b⟩ := rb
    rw [hga] at h
    cases b with
    | true => simp at h
    | false =>
      by_cases hx : rec.value.urls.any (fun pu => env.urlLooksExpired pu.2)
      · simp [hx] at h
      · simp [hx] at h
        exact ⟨rec, getWithAge_lookup hga, h.symm⟩

/-- C5: the event-photo cache key is a deterministic function of event,
sort, role and moderation mode; reads that derive different actor roles use
distinct keys, and a cache-served read returns exactly the payload stored
under its own role-specific key — never another role's entry. -/
theorem photo_cache_role_isolation (env : PhotoUrlEnv) (ev : EventRow)
    (eventId sortBy : String) (page limit expiresIn : Nat)
    (u1 u2 : Option String)
    (hev : env.eventRow = .ok ev)
    (hrole : userRoleOf ev u1 ≠ userRoleOf ev u2) :
    (∀ mode,
      photoCacheKey eventId (validatedSort sortBy) (userRoleOf ev u1) mode
          page limit ≠
        photoCacheKey eventId (validatedSort sortBy) (userRoleOf ev u2) mode
          page limit) ∧
    (∀ r, getEventPhotoUrls env eventId page limit false expiresIn u1 sortBy
        = .ok r → r.cached = true →
      ∃ rec, kvLookup env.eventKv
          (photoCacheKey eventId (validatedSort sortBy) (userRoleOf ev u1)
            (moderationModeOf ev) page limit) = some rec ∧
        r.payload = rec.value) := by
  constructor
  · intro mode
    exact photoCacheKey_role_ne eventId (validatedSort sortBy) mode page limit
      (userRoleOf_mem ev u1) (userRoleOf_mem ev u2) hrole
  · intro r hr hc
    unfold getEventPhotoUrls at hr
    rw [hev] at hr
    simp only at hr
    cases hhit : photoEventCacheHit env
        (photoCacheKey eventId (validatedSort sortBy) (userRoleOf ev u1)
          (moderationModeOf ev) page limit) false with
    | some payload =>
      simp only [hhit, Except.ok.injEq] at hr
      obtain ⟨rec, hrec, hval⟩ := photoEventCacheHit_some hhit
      subst hr
      exact ⟨rec, hrec, hval⟩
    | none =>
      simp only [hhit] at hr
      exfalso
      rcases hpt : env.photoTable with e | rows
      · simp only [hpt] at hr
        exact absurd hr (by simp)
      · simp only [hpt] at hr
        split at hr
        all_goals try split at hr
        all_goals try split at hr
        all_goals first
          | (injection hr with hr; rw [← hr] at hc; simp at hc)
          | exact absurd hr (by simp)

/-- A moderated event created by `alice`, with no extra organizers. -/
def sampleEvent : EventRow :=
  { created_by := "alice", require_moderation := true, organizers := [] }

/-- An empty cached payload used as stored cache content in examples. -/
def samplePayload : PhotoPayload :=
  { photos := [], urls := [], total_count := 0, page := 1, total_pages := 0 }

def sampleSignEnv : SignEnv :=
  { sign := fun _ => .error "unused", urlKv := [], now := 0 }

/-- A photo-URL environment whose event-level cache holds one fresh entry
under the anonymous-role key for event `e1`. -/
def samplePhotoEnv : PhotoUrlEnv :=
  { eventRow := .ok sampleEvent
    photoTable := .ok []
    eventKv := [(photoCacheKey "e1" "most_liked" "anonymous" "moderated" 1 50,
      { value := samplePayload, cached_at := 5, expires_at := 100000 })]
    signEnv := sampleSignEnv
    extractPath := fun _ => none
    urlLooksExpired := fun _ => false
    now := 0 }

/-- Witness for C5: on the moderated sample event the anonymous-role key
differs from the organizer-role key at identical pagination, and the
anonymous cached read is served from the entry stored under the anonymous
key. -/
theorem photo_cache_role_isolation_witness :
    (photoCacheKey "e1" (validatedSort "most_liked")
        (userRoleOf sampleEvent none) "moderated" 1 50 ≠
      photoCacheKey "e1" (validatedSort "most_liked")
        (userRoleOf sampleEvent (some "alice")) "moderated" 1 50) ∧
    ∃ rec, kvLookup samplePhotoEnv.eventKv
        (photoCacheKey "e1" (validatedSort "most_liked")
          (userRoleOf sampleEvent none) (moderationModeOf sampleEvent) 1 50) =
        some rec ∧
      ({ payload := samplePayload, cached := true, source := "event_cache" } :
        PhotoUrlsRead).payload = rec.value :=
  ⟨(photo_cache_role_isolation samplePhotoEnv sampleEvent "e1" "most_liked"
      1 50 3600 none (some "alice") rfl (by decide)).1 "moderated",
   (photo_cache_role_isolation samplePhotoEnv sampleEvent "e1" "most_liked"
      1 50 3600 none (some "alice") rfl (by decide)).2
     { payload := samplePayload, cached := true, source := "event_cache" }
     (by decide) rfl⟩

/-! ## Path lemmas for the dispatch engine -/

/-- With a blocking should-send verdict the call stops with
`user_preferences`, touching neither rate map nor history nor any
provider. -/
theorem sendNotification_user_preferences (env : DispatchEnv)
    (st : DispatchState) (userId : String) (t : NotificationType)
    (d : NotificationData)
    (hval : validateNotificationData t d = .ok ())
    (hsend : (shouldSendNotification env.rpcFails st.prefsRow env.nowTime).2
      = false) :
    sendNotification env st userId t d =
      ⟨{ success := false, reason := some "user_preferences" },
       { st with
          prefsRow := (shouldSendNotification env.rpcFails st.prefsRow
            env.nowTime).1 }, []⟩ := by
  unfold sendNotification
  rw [hval]
  simp [hsend]

/-- With a rate-limited verdict the call stops with `rate_limited`; the
rate map is only what `isRateLimited` itself returns (no increment), and no
provider is called and no history written. -/
theorem sendNotification_rate_limited (env : DispatchEnv)
    (st : DispatchState) (userId : String) (t : NotificationType)
    (d : NotificationData)
    (hval : validateNotificationData t d = .ok ())
    (hsend : (shouldSendNotification env.rpcFails st.prefsRow env.nowTime).2
      = true)
    (hrl : (isRateLimited st.rateMap env.now userId t).2 = true) :
    sendNotification env st userId t d =
      ⟨{ success := false, reason := some "rate_limited" },
       { st with
          prefsRow := (shouldSendNotification env.rpcFails st.prefsRow
            env.nowTime).1
          rateMap := (isRateLimited st.rateMap env.now userId t).1 }, []⟩ := by
  unfold sendNotification
  rw [hval]
  simp [hsend, typeEnabledFor_eq_true, hrl]

/-- With no active token the call stops with `no_tokens`. -/
theorem sendNotification_no_tokens (env : DispatchEnv)
    (st : DispatchState) (userId : String) (t : NotificationType)
    (d : NotificationData)
    (hval : validateNotificationData t d = .ok ())
    (hsend : (shouldSendNotification env.rpcFails st.prefsRow env.nowTime).2
      = true)
    (hrl : (isRateLimited st.rateMap env.now userId t).2 = false)
    (htok : env.tokens.length = 0) :
    sendNotification env st userId t d =
      ⟨{ success := false, reason := some "no_tokens" },
       { st with
          prefsRow := (shouldSendNotification env.rpcFails st.prefsRow
            env.nowTime).1
          rateMap := (isRateLimited st.rateMap env.now userId t).1 }, []⟩ := by
  unfold sendNotification
  rw [hval]
  simp [hsend, typeEnabledFor_eq_true, hrl, htok]

/-- When every gate passes, the call renders, dispatches the buckets,
appends one `sent` history row, increments the rate counter, and reports
`success:true` with `devicesReached` equal to the aggregated success
count — whatever that count is. -/
theorem sendNotification_success_path (env : DispatchEnv)
    (st : DispatchState) (userId : String) (t : NotificationType)
    (d : NotificationData)
    (hval : validateNotificationData t d = .ok ())
    (hsend : (shouldSendNotification env.rpcFails st.prefsRow env.nowTime).2
      = true)
    (hrl : (isRateLimited st.rateMap env.now userId t).2 = false)
    (htok : env.tokens.length ≠ 0) :
    sendNotification env st userId t d =
      ⟨{ success := true
         devicesReached := some (sendToDevices env.tokens env.responses).1.successful },
       { prefsRow := (shouldSendNotification env.rpcFails st.prefsRow
            env.nowTime).1
         rateMap := updateRateLimit
            (isRateLimited st.rateMap env.now userId t).1 env.now userId t
         history := st.history ++
           [{ userId := userId, ntype := typeKey t, title := templateTitle t d
              body := templateBody t d, status := "sent" }] },
       (sendToDevices env.tokens env.responses).2⟩ := by
  unfold sendNotification
  rw [hval]
  simp [hsend, typeEnabledFor_eq_true, hrl, htok, buildNotification]

/-! ## Claim C1 — policy skips -/

def noResponses : AdapterResponses :=
  { expo := none, fcmV1 := none, fcmLegacy := none, apns := none }

def dPhoto : NotificationData :=
  { eventName := some "Summer Party", likeCount := some 15 }

/-- 23:00 user-local time, no tokens, every adapter unreachable. -/
def quietEnv : DispatchEnv :=
  { rpcFails := false, nowTime := 1380, now := 0, tokens := []
    responses := noResponses }

/-- A stored row with the JavaScript defaults: quiet hours 22:00–07:00
enabled. -/
def quietState : DispatchState :=
  { prefsRow := some jsDefaultPrefs, rateMap := [], history := [] }

/-- A stored row with the SQL column defaults: quiet hours disabled. -/
def allowState : DispatchState :=
  { prefsRow := some sqlDefaultPrefs, rateMap := [], history := [] }

/-- C1 counterexample: a dispatch blocked by the quiet-hours policy
short-circuits with the `user_preferences` reason code and calls no
provider, but its result carries `success: false` — not the successful
no-op outcome the claim describes. -/
theorem policy_skip_not_success_counterexample :
    (sendNotification quietEnv quietState "u1" .photo_liked dPhoto).outcome =
      { success := false, reason := some "user_preferences", error := none
        devicesReached := none } ∧
    (sendNotification quietEnv quietState "u1" .photo_liked dPhoto).providerCalls
      = [] := by
  decide

/-- C1 amended: every dispatch that short-circuits for one of the four
policy reasons returns a structured result with `success: false` carrying
the reason code and no error message — distinct from the error result shape
— and no provider adapter is called and no history row written. -/
theorem policy_skip_amended (env : DispatchEnv) (st : DispatchState)
    (userId : String) (t : NotificationType) (d : NotificationData)
    (ρ : String)
    (_hρ : ρ ∈ (["user_preferences", "type_disabled", "rate_limited",
      "no_tokens"] : List String))
    (h : (sendNotification env st userId t d).outcome.reason = some ρ) :
    (sendNotification env st userId t d).outcome.success = false ∧
    (sendNotification env st userId t d).outcome.error = none ∧
    (sendNotification env st userId t d).providerCalls = [] ∧
    (sendNotification env st userId t d).state.history = st.history := by
  cases hv : validateNotificationData t d with
  | error msg =>
    unfold sendNotification at h
    rw [hv] at h
    exact absurd h (by simp)
  | ok u =>
    cases u
    by_cases hs : (shouldSendNotification env.rpcFails st.prefsRow
      env.nowTime).2 = true
    · by_cases hr2 : (isRateLimited st.rateMap env.now userId t).2 = true
      · rw [sendNotification_rate_limited env st userId t d hv hs hr2]
        exact ⟨rfl, rfl, rfl, rfl⟩
      · by_cases ht : env.tokens.length = 0
        · rw [sendNotification_no_tokens env st userId t d hv hs
            (by simpa using hr2) ht]
          exact ⟨rfl, rfl, rfl, rfl⟩
        · rw [sendNotification_success_path env st userId t d hv hs
            (by simpa using hr2) ht] at h
          exact absurd h (by simp)
    · rw [sendNotification_user_preferences env st userId t d hv
        (by simpa using hs)]
      exact ⟨rfl, rfl, rfl, rfl⟩

/-- Witness for C1: a user with default (SQL) preferences and no device
token is skipped with `no_tokens`, `success: false`, no error, no provider
call, no history write. -/
theorem policy_skip_amended_witness :
    (sendNotification quietEnv allowState "u1" .photo_liked dPhoto).outcome.success
      = false ∧
    (sendNotification quietEnv allowState "u1" .photo_liked dPhoto).outcome.error
      = none ∧
    (sendNotification quietEnv allowState "u1" .photo_liked dPhoto).providerCalls
      = [] ∧
    (sendNotification quietEnv allowState "u1" .photo_liked dPhoto).state.history
      = allowState.history :=
  policy_skip_amended quietEnv allowState "u1" .photo_liked dPhoto "no_tokens"
    (by decide) (by decide)

/-! ## Claim C9 — missing preference row: allow everything, create lazily -/

/-- C9: a dispatch for a user with no stored preference row passes the
should-send policy (the stored procedure lazily inserts the default row and
allows), is never skipped for a preference reason, ends with the default
row present in the store, and the defaults treat every notification type as
enabled. -/
theorem missing_prefs_row_lazy_creation (env : DispatchEnv)
    (st : DispatchState) (userId : String) (t : NotificationType)
    (d : NotificationData)
    (hrow : st.prefsRow = none) (hrpc : env.rpcFails = false)
    (hval : validateNotificationData t d = .ok ()) :
    shouldSendNotification env.rpcFails st.prefsRow env.nowTime =
      (some sqlDefaultPrefs, true) ∧
    (sendNotification env st userId t d).outcome.reason ≠
      some "user_preferences" ∧
    (sendNotification env st userId t d).outcome.reason ≠
      some "type_disabled" ∧
    (sendNotification env st userId t d).state.prefsRow =
      some sqlDefaultPrefs ∧
    ∀ t2 : NotificationType, typeEnabledFor sqlDefaultPrefs t2 = true := by
  have hrpc1 : shouldSendNotification env.rpcFails st.prefsRow env.nowTime =
      (some sqlDefaultPrefs, true) := by
    rw [hrow, hrpc]; rfl
  have hsend : (shouldSendNotification env.rpcFails st.prefsRow
      env.nowTime).2 = true := by rw [hrpc1]
  have hfst : (shouldSendNotification env.rpcFails st.prefsRow
      env.nowTime).1 = some sqlDefaultPrefs := by rw [hrpc1]
  refine ⟨hrpc1, ?_⟩
  by_cases hr2 : (isRateLimited st.rateMap env.now userId t).2 = true
  · rw [sendNotification_rate_limited env st userId t d hval hsend hr2]
    exact ⟨by simp, by simp, by simpa using hfst,
      fun t2 => typeEnabledFor_eq_true _ t2⟩
  · by_cases ht : env.tokens.length = 0
    · rw [sendNotification_no_tokens env st userId t d hval hsend
        (by simpa using hr2) ht]
      exact ⟨by simp, by simp, by simpa using hfst,
        fun t2 => typeEnabledFor_eq_true _ t2⟩
    · rw [sendNotification_success_path env st userId t d hval hsend
        (by simpa using hr2) ht]
      exact ⟨by simp, by simp, by simpa using hfst,
        fun t2 => typeEnabledFor_eq_true _ t2⟩

/-- A user whose only device has an Expo-format token, with the Expo
provider reporting one success. -/
def oneExpoEnv : DispatchEnv :=
  { rpcFails := false, nowTime := 720, now := 0
    tokens := [{ token := "ExponentPushToken[abc]", platform := "ios" }]
    responses := { noResponses with
      expo := some { success := true, successCount := 1 } } }

def noRowState : DispatchState :=
  { prefsRow := none, rateMap := [], history := [] }

/-- Witness for C9: dispatching `photo_liked` to a user with no preference
row creates the default row, is not skipped for preferences, and the
default row allows `event_live` (and every other type). -/
theorem missing_prefs_row_lazy_creation_witness :
    shouldSendNotification oneExpoEnv.rpcFails noRowState.prefsRow
      oneExpoEnv.nowTime = (some sqlDefaultPrefs, true) ∧
    (sendNotification oneExpoEnv noRowState "u1" .photo_liked
      dPhoto).outcome.reason ≠ some "user_preferences" ∧
    (sendNotification oneExpoEnv noRowState "u1" .photo_liked
      dPhoto).outcome.reason ≠ some "type_disabled" ∧
    (sendNotification oneExpoEnv noRowState "u1" .photo_liked
      dPhoto).state.prefsRow = some sqlDefaultPrefs ∧
    typeEnabledFor sqlDefaultPrefs .event_live = true := by
  have h := missing_prefs_row_lazy_creation oneExpoEnv noRowState "u1"
    .photo_liked dPhoto rfl rfl (by decide)
  exact ⟨h.1, h.2.1, h.2.2.1, h.2.2.2.1, h.2.2.2.2 .event_live⟩

/-! ## Claim C10 — a gated-through dispatch records `sent` and succeeds -/

/-- C10: once validation, the should-send policy, the rate limiter and
token resolution all pass, the dispatch appends exactly one history row
with status `sent` and returns `success:true` with `devicesReached` the
aggregated provider success count — for every adapter response, including
total provider failure. -/
theorem dispatch_records_sent_even_zero_devices (env : DispatchEnv)
    (st : DispatchState) (userId : String) (t : NotificationType)
    (d : NotificationData)
    (hval : validateNotificationData t d = .ok ())
    (hsend : (shouldSendNotification env.rpcFails st.prefsRow env.nowTime).2
      = true)
    (hrl : (isRateLimited st.rateMap env.now userId t).2 = false)
    (htok : env.tokens.length ≠ 0) :
    (sendNotification env st userId t d).outcome.success = true ∧
    (sendNotification env st userId t d).outcome.devicesReached =
      some (sendToDevices env.tokens env.responses).1.successful ∧
    (sendNotification env st userId t d).state.history =
      st.history ++
        [{ userId := userId, ntype := typeKey t, title := templateTitle t d
           body := templateBody t d, status := "sent" }] := by
  rw [sendNotification_success_path env st userId t d hval hsend hrl htok]
  exact ⟨rfl, rfl, rfl⟩

/-- One Android device whose legacy FCM batch send throws: zero devices
reached. -/
def deadProviderEnv : DispatchEnv :=
  { rpcFails := false, nowTime := 720, now := 0
    tokens := [{ token := "fcmtok1", platform := "android" }]
    responses := noResponses }

/-- Witness for C10: with every provider send failing, the dispatch still
returns `success:true` with `devicesReached = 0` and writes the history row
with status `sent`. -/
theorem dispatch_records_sent_witness :
    (sendNotification deadProviderEnv allowState "u1" .photo_liked
      dPhoto).outcome.success = true ∧
    (sendNotification deadProviderEnv allowState "u1" .photo_liked
      dPhoto).outcome.devicesReached = some 0 ∧
    (sendNotification deadProviderEnv allowState "u1" .photo_liked
      dPhoto).state.history =
      [{ userId := "u1", ntype := "photo_liked"
         title := templateTitle .photo_liked dPhoto
         body := templateBody .photo_liked dPhoto, status := "sent" }] := by
  have h := dispatch_records_sent_even_zero_devices deadProviderEnv allowState
    "u1" .photo_liked dPhoto (by decide) (by decide) (by decide) (by decide)
  exact ⟨h.1, h.2.1.trans (by decide), h.2.2.trans (by decide)⟩

/-! ## Claim C3 — per-(user,type) fixed-window rate limiting -/

theorem rlookup_rset_self (m : RateMap) (key : String) (e : RateEntry) :
    rlookup (rset m key e) key = some e := by
  unfold rlookup rset
  simp [List.lookup]

/-- `n` consecutive successful sends for the same user and type inside one
window, starting from an empty map (each send runs `updateRateLimit`). -/
def iterSends (userId : String) (t : NotificationType) (now : Nat) :
    Nat → RateMap
  | 0 => []
  | n + 1 => updateRateLimit (iterSends userId t now n) now userId t

theorem iterSends_lookup (userId : String) (t : NotificationType) (now : Nat) :
    ∀ n, 1 ≤ n →
      rlookup (iterSends userId t now n) (rateKey userId t) =
        some ⟨n, now + 60000⟩ := by
  intro n hn
  induction n with
  | zero => omega
  | succ k ih =>
    by_cases hk : 1 ≤ k
    · have hlk := ih hk
      show rlookup (updateRateLimit (iterSends userId t now k) now userId t) _
        = _
      unfold updateRateLimit
      simp only [hlk, gt_iff_lt]
      have hlt : ¬ now + 60000 < now := by omega
      simp [hlt, rlookup_rset_self]
    · have hk0 : k = 0 := by omega
      subst hk0
      show rlookup (updateRateLimit [] now userId t) _ = _
      unfold updateRateLimit
      simp only [rlookup, List.lookup]
      exact rlookup_rset_self [] _ _

/-- A rate-limit map in which `u1:photo_liked` already reached its ceiling
of 10 inside a window that is still open at the environment's clock. -/
def rlState : DispatchState :=
  { prefsRow := some sqlDefaultPrefs
    rateMap := [("u1:photo_liked", ⟨10, 1000000⟩)]
    history := [] }

def rlEnv : DispatchEnv :=
  { rpcFails := false, nowTime := 720, now := 500000
    tokens := [{ token := "ExponentPushToken[abc]", platform := "ios" }]
    responses := noResponses }

/-- C3 counterexample: the call at the ceiling is skipped with
`rate_limited`, but the stored counter stays at 10 — `updateRateLimit` runs
only after a successful send, so the counter does NOT increment on the
skipped call as the claim states. -/
theorem rate_limit_no_increment_counterexample :
    (sendNotification rlEnv rlState "u1" .photo_liked dPhoto).outcome.reason
      = some "rate_limited" ∧
    rlookup (sendNotification rlEnv rlState "u1" .photo_liked
        dPhoto).state.rateMap "u1:photo_liked" =
      some ⟨10, 1000000⟩ := by
  decide

/-- C3 amended: per-(user,type) ceilings as configured (photo_liked 10,
event_live 1); N in-window sends put the counter at N; at the ceiling the
next in-window call is skipped with `rate_limited` and the map is left
unchanged (no increment on the skipped call); past the window boundary the
limiter clears and a fully gated call succeeds. -/
theorem rate_limit_amended (env : DispatchEnv) (st : DispatchState)
    (userId : String) (t : NotificationType) (d : NotificationData)
    (hval : validateNotificationData t d = .ok ())
    (hsend : (shouldSendNotification env.rpcFails st.prefsRow env.nowTime).2
      = true) :
    (maxRequests .photo_liked = 10 ∧ maxRequests .event_live = 1) ∧
    (∀ n, 1 ≤ n →
      rlookup (iterSends userId t env.now n) (rateKey userId t) =
        some ⟨n, env.now + 60000⟩) ∧
    (∀ e, rlookup st.rateMap (rateKey userId t) = some e →
      maxRequests t ≤ e.count → ¬ env.now > e.resetTime →
      (sendNotification env st userId t d).outcome.reason =
        some "rate_limited" ∧
      (sendNotification env st userId t d).state.rateMap = st.rateMap) ∧
    (st.rateMap = iterSends userId t env.now (maxRequests t) →
      (sendNotification env st userId t d).outcome.reason =
        some "rate_limited") ∧
    (∀ e, rlookup st.rateMap (rateKey userId t) = some e →
      env.now > e.resetTime →
      (isRateLimited st.rateMap env.now userId t).2 = false ∧
      (env.tokens.length ≠ 0 →
        (sendNotification env st userId t d).outcome.success = true)) := by
  have hskip : ∀ e, rlookup st.rateMap (rateKey userId t) = some e →
      maxRequests t ≤ e.count → ¬ env.now > e.resetTime →
      (sendNotification env st userId t d).outcome.reason =
        some "rate_limited" ∧
      (sendNotification env st userId t d).state.rateMap = st.rateMap := by
    intro e hlk hc hnw
    have hrl : isRateLimited st.rateMap env.now userId t = (st.rateMap, true) := by
      unfold isRateLimited
      simp only [hlk]
      simp [hnw, ge_iff_le, hc]
    rw [sendNotification_rate_limited env st userId t d hval hsend
      (by rw [hrl])]
    exact ⟨rfl, by simp [hrl]⟩
  refine ⟨⟨rfl, rfl⟩, iterSends_lookup userId t env.now, hskip, ?_, ?_⟩
  · intro hiter
    have hpos := maxRequests_pos t
    have hlk : rlookup st.rateMap (rateKey userId t) =
        some ⟨maxRequests t, env.now + 60000⟩ := by
      rw [hiter]
      exact iterSends_lookup userId t env.now (maxRequests t) hpos
    exact (hskip ⟨maxRequests t, env.now + 60000⟩ hlk (le_refl _)
      (by show ¬ env.now > env.now + 60000; omega)).1
  · intro e hlk hgt
    have hpos := maxRequests_pos t
    have hrl : isRateLimited st.rateMap env.now userId t =
        (rset st.rateMap (rateKey userId t) ⟨0, env.now + 60000⟩, false) := by
      unfold isRateLimited
      simp only [hlk]
      have hdec : ¬ maxRequests t ≤ 0 := by omega
      simp [ge_iff_le, hdec, hgt]
    refine ⟨by rw [hrl], ?_⟩
    intro htok
    rw [sendNotification_success_path env st userId t d hval hsend
      (by rw [hrl]) htok]

/-- A user at exactly the `photo_liked` ceiling after ten in-window sends. -/
def tenSendsState : DispatchState :=
  { prefsRow := some sqlDefaultPrefs
    rateMap := iterSends "u1" .photo_liked 500000 10
    history := [] }

/-- A map whose window closed at 100000, probed at 500000. -/
def expiredWindowState : DispatchState :=
  { prefsRow := some sqlDefaultPrefs
    rateMap := [("u1:photo_liked", ⟨10, 100000⟩)]
    history := [] }

/-- Witness for C3: the ceilings are 10 and 1; the 11th in-window
`photo_liked` call is skipped; after the window boundary the limiter clears
and the call succeeds. -/
theorem rate_limit_amended_witness :
    (maxRequests .photo_liked = 10 ∧ maxRequests .event_live = 1) ∧
    (sendNotification rlEnv tenSendsState "u1" .photo_liked
      dPhoto).outcome.reason = some "rate_limited" ∧
    (isRateLimited expiredWindowState.rateMap rlEnv.now "u1" .photo_liked).2
      = false ∧
    (sendNotification rlEnv expiredWindowState "u1" .photo_liked
      dPhoto).outcome.success = true := by
  have h1 := rate_limit_amended rlEnv tenSendsState "u1" .photo_liked dPhoto
    (by decide) (by decide)
  have h2 := rate_limit_amended rlEnv expiredWindowState "u1" .photo_liked
    dPhoto (by decide) (by decide)
  have h2w := h2.2.2.2.2 ⟨10, 100000⟩ (by decide) (by decide)
  exact ⟨h1.1, h1.2.2.2.1 rfl, h2w.1, h2w.2 (by decide)⟩

/-! ## Claim C4 — batch adapters: counts and deactivation -/

theorem chunkListGo_flatten (n : Nat) (hn : n ≠ 0) :
    ∀ (fuel : Nat) (l : List α), l.length ≤ fuel →
      (chunkListGo n fuel l).flatten = l := by
  intro fuel
  induction fuel with
  | zero =>
    intro l hl
    cases l with
    | nil => rfl
    | cons a as => simp at hl
  | succ k ih =>
    intro l hl
    cases l with
    | nil => rfl
    | cons a as =>
      show ((a :: as).take n :: chunkListGo n k ((a :: as).drop n)).flatten
        = a :: as
      simp only [List.flatten_cons]
      rw [ih ((a :: as).drop n) (by simp at hl ⊢; omega)]
      exact List.take_append_drop n (a :: as)

theorem chunkList_flatten (n : Nat) (hn : n ≠ 0) (l : List α) :
    (chunkList n l).flatten = l := by
  unfold chunkList
  rw [if_neg (by simpa using hn)]
  exact chunkListGo_flatten n hn l.length l (le_refl _)

theorem chunkListGo_mem_length_le (n : Nat) :
    ∀ (fuel : Nat) (l : List α), ∀ c ∈ chunkListGo n fuel l, c.length ≤ n := by
  intro fuel
  induction fuel with
  | zero =>
    intro l c hc
    cases l with
    | nil => simp [chunkListGo] at hc
    | cons a as => simp [chunkListGo] at hc
  | succ k ih =>
    intro l c hc
    cases l with
    | nil => simp [chunkListGo] at hc
    | cons a as =>
      simp only [chunkListGo, List.mem_cons] at hc
      rcases hc with hc | hc
      · rw [hc]
        simp [List.length_take]
      · exact ih _ c hc

/-- Every sub-batch produced by `chunkList n` holds at most `n` elements. -/
theorem chunkList_mem_length_le (n : Nat) (l : List α) :
    ∀ c ∈ chunkList n l, c.length ≤ n := by
  unfold chunkList
  split
  · simp
  · exact chunkListGo_mem_length_le n l.length l

theorem processTickets_spec (ticketOf : String → TicketStatus) :
    ∀ (l : List String) (acc : ExpoAgg),
      (processTickets ticketOf acc l).successCount +
          (processTickets ticketOf acc l).failureCount =
        acc.successCount + acc.failureCount + l.length ∧
      (processTickets ticketOf acc l).tokensToDeactivate =
        acc.tokensToDeactivate ++
          l.filter (fun tok => ticketOf tok == .errorDeviceNotRegistered) := by
  intro l
  induction l with
  | nil => intro acc; simp [processTickets]
  | cons tok rest ih =>
    intro acc
    cases ht : ticketOf tok with
    | ok =>
      have h := ih { acc with successCount := acc.successCount + 1 }
      simp only [processTickets, ht]
      refine ⟨by rw [h.1]; simp; omega, ?_⟩
      rw [h.2]
      simp [List.filter_cons, ht]
    | errorDeviceNotRegistered =>
      have h := ih { acc with
        failureCount := acc.failureCount + 1
        tokensToDeactivate := acc.tokensToDeactivate ++ [tok] }
      simp only [processTickets, ht]
      refine ⟨by rw [h.1]; simp; omega, ?_⟩
      rw [h.2]
      simp [List.filter_cons, ht]
    | errorOther =>
      have h := ih { acc with failureCount := acc.failureCount + 1 }
      simp only [processTickets, ht]
      refine ⟨by rw [h.1]; simp; omega, ?_⟩
      rw [h.2]
      simp [List.filter_cons, ht]

theorem processChunks_spec (en : ExpoEnv) :
    ∀ (cs : List (List String)) (acc : ExpoAgg) (i : Nat),
      (processChunks en acc i cs).successCount +
          (processChunks en acc i cs).failureCount =
        acc.successCount + acc.failureCount + (cs.map List.length).sum ∧
      ∀ tok ∈ (processChunks en acc i cs).tokensToDeactivate,
        tok ∈ acc.tokensToDeactivate ∨
          (tok ∈ cs.flatten ∧
            en.ticketOf tok = .errorDeviceNotRegistered) := by
  intro cs
  induction cs with
  | nil => intro acc i; simp [processChunks]
  | cons c rest ih =>
    intro acc i
    by_cases hthrow : en.chunkThrows i
    · have heq : processChunks en acc i (c :: rest) =
          processChunks en
            { acc with failureCount := acc.failureCount + c.length }
            (i + 1) rest := by
        simp [processChunks, hthrow]
      rw [heq]
      have h := ih { acc with failureCount := acc.failureCount + c.length }
        (i + 1)
      refine ⟨by rw [h.1]; simp; omega, ?_⟩
      intro tok htok
      rcases h.2 tok htok with hmem | ⟨hmem, hdnr⟩
      · exact Or.inl hmem
      · exact Or.inr ⟨by simp [List.mem_flatten] at hmem ⊢; tauto, hdnr⟩
    · have heq : processChunks en acc i (c :: rest) =
          processChunks en (processTickets en.ticketOf acc c) (i + 1) rest := by
        simp [processChunks, hthrow]
      rw [heq]
      have hpt := processTickets_spec en.ticketOf c acc
      have h := ih (processTickets en.ticketOf acc c) (i + 1)
      refine ⟨by rw [h.1, hpt.1]; simp; omega, ?_⟩
      intro tok htok
      rcases h.2 tok htok with hmem | ⟨hmem, hdnr⟩
      · rw [hpt.2] at hmem
        rcases List.mem_append.mp hmem with hmem | hmem
        · exact Or.inl hmem
        · rcases List.mem_filter.mp hmem with ⟨hmc, hdnr2⟩
          exact Or.inr ⟨by simp [List.mem_flatten]; exact Or.inl hmc,
            by simpa using hdnr2⟩
      · exact Or.inr ⟨by simp [List.mem_flatten] at hmem ⊢; tauto, hdnr⟩

theorem countP_not_length (p : α → Bool) (l : List α) :
    l.countP p + l.countP (fun a => !p a) = l.length := by
  have h : l.length = l.countP p + l.countP (fun a => !p a) := by
    have h0 := List.length_eq_countP_add_countP p (l := l)
    simpa using h0
  omega

theorem fcmChunksGo_no_throw (en : FcmEnv)
    (hthrow : ∀ i, en.chunkThrows i = false) :
    ∀ (cs : List (List String)) (i : Nat),
      fcmChunksGo en i cs =
        .ok (cs.map (fun c =>
          { successCount := c.countP en.sendOk
            failureCount := c.countP (fun tok => !en.sendOk tok) })) := by
  intro cs
  induction cs with
  | nil => intro i; rfl
  | cons c rest ih =>
    intro i
    simp only [fcmChunksGo, hthrow i, Bool.false_eq_true, if_false, ih (i + 1),
      List.map_cons]

/-- C4: over a batch of well-formed Expo tokens some of which the provider
rejects, the Expo adapter reports `successCount + failureCount` equal to
the batch size and queues for deactivation only tokens whose ticket came
back `DeviceNotRegistered` (never tokens whose send succeeded); the legacy
FCM adapter's per-chunk counts likewise sum to its batch size and it marks
no token for deactivation at all. -/
theorem sendBatch_counts_and_deactivation (en : ExpoEnv)
    (tokens : List String) (fen : FcmEnv) (ftokens : List String)
    (hexpo : ∀ tok ∈ tokens, en.isExpoPushToken tok = true)
    (hne : tokens ≠ [])
    (hfcm : ∀ i, fen.chunkThrows i = false) :
    ((sendBatchExpoPushNotifications en tokens).success = true ∧
      (sendBatchExpoPushNotifications en tokens).successCount +
        (sendBatchExpoPushNotifications en tokens).failureCount =
        tokens.length ∧
      ∀ tok ∈ (sendBatchExpoPushNotifications en tokens).tokensToDeactivate,
        tok ∈ tokens ∧ en.ticketOf tok = .errorDeviceNotRegistered) ∧
    ((sendBatchFCMNotifications fen ftokens).success = true ∧
      (((sendBatchFCMNotifications fen ftokens).results).map
        (fun ch => ch.successCount + ch.failureCount)).sum =
        ftokens.length ∧
      fcmTokensMarkedForDeactivation fen ftokens = []) := by
  constructor
  · have hfilter : tokens.filter en.isExpoPushToken = tokens :=
      List.filter_eq_self.mpr (by intro a ha; simp [hexpo a ha])
    have hempty : tokens.isEmpty = false := by
      cases tokens with
      | nil => exact absurd rfl hne
      | cons a as => rfl
    have hcs := processChunks_spec en (chunkList 100 tokens) ⟨0, 0, []⟩ 0
    have hflat : (chunkList 100 tokens).flatten = tokens :=
      chunkList_flatten 100 (by omega) tokens
    have hsum : ((chunkList 100 tokens).map List.length).sum
        = tokens.length := by
      rw [← List.length_flatten, hflat]
    have hexp : sendBatchExpoPushNotifications en tokens =
        { success := true
          successCount :=
            (processChunks en ⟨0, 0, []⟩ 0 (chunkList 100 tokens)).successCount
          failureCount :=
            (processChunks en ⟨0, 0, []⟩ 0 (chunkList 100 tokens)).failureCount
          invalidCount :=
            (tokens.filter (fun tok => !en.isExpoPushToken tok)).length
          tokensToDeactivate :=
            (processChunks en ⟨0, 0, []⟩ 0
              (chunkList 100 tokens)).tokensToDeactivate } := by
      unfold sendBatchExpoPushNotifications
      rw [hfilter, if_neg (by rw [hempty]; simp)]
    rw [hexp]
    refine ⟨rfl, ?_, ?_⟩
    · simpa [hsum] using hcs.1
    · intro tok htok
      rcases hcs.2 tok htok with hmem | ⟨hmem, hdnr⟩
      · simp at hmem
      · rw [hflat] at hmem
        exact ⟨hmem, hdnr⟩
  · have hok := fcmChunksGo_no_throw fen hfcm (chunkList 500 ftokens) 0
    have hflat : (chunkList 500 ftokens).flatten = ftokens :=
      chunkList_flatten 500 (by omega) ftokens
    unfold sendBatchFCMNotifications
    rw [hok]
    refine ⟨rfl, ?_, rfl⟩
    have hmapeq : ∀ cs : List (List String),
        ((cs.map (fun c =>
            ({ successCount := c.countP fen.sendOk,
               failureCount := c.countP (fun tok => !fen.sendOk tok) } :
              FcmLegacyChunk))).map
          (fun ch => ch.successCount + ch.failureCount)).sum =
          (cs.map List.length).sum := by
      intro cs
      induction cs with
      | nil => rfl
      | cons c rest ih =>
        simp only [List.map_cons, List.sum_cons, ih]
        rw [countP_not_length]
    rw [hmapeq, ← List.length_flatten, hflat]

/-- A three-token Expo batch: one delivered, one `DeviceNotRegistered`, one
other error. -/
def expoEnvW : ExpoEnv :=
  { isExpoPushToken := fun tok => strStartsWith tok "ExponentPushToken"
    ticketOf := fun tok =>
      if tok = "ExponentPushToken[b]" then .errorDeviceNotRegistered
      else if tok = "ExponentPushToken[c]" then .errorOther
      else .ok
    chunkThrows := fun _ => false }

def fcmEnvW : FcmEnv :=
  { sendOk := fun tok => tok = "f1", chunkThrows := fun _ => false }

/-- Witness for C4: on the mixed three-token Expo batch the counts sum to
3 and the `DeviceNotRegistered` token queued for deactivation is a batch
member the provider classified invalid; the two-token FCM batch counts sum
to 2 with nothing marked. -/
theorem sendBatch_counts_witness :
    (sendBatchExpoPushNotifications expoEnvW
      ["ExponentPushToken[a]", "ExponentPushToken[b]",
        "ExponentPushToken[c]"]).successCount +
      (sendBatchExpoPushNotifications expoEnvW
        ["ExponentPushToken[a]", "ExponentPushToken[b]",
          "ExponentPushToken[c]"]).failureCount = 3 ∧
    ("ExponentPushToken[b]" ∈
        (["ExponentPushToken[a]", "ExponentPushToken[b]",
          "ExponentPushToken[c]"] : List String) ∧
      expoEnvW.ticketOf "ExponentPushToken[b]" = .errorDeviceNotRegistered) ∧
    (((sendBatchFCMNotifications fcmEnvW ["f1", "f2"]).results).map
      (fun ch => ch.successCount + ch.failureCount)).sum = 2 ∧
    fcmTokensMarkedForDeactivation fcmEnvW ["f1", "f2"] = [] := by
  have h := sendBatch_counts_and_deactivation expoEnvW
    ["ExponentPushToken[a]", "ExponentPushToken[b]", "ExponentPushToken[c]"]
    fcmEnvW ["f1", "f2"] (by decide) (by decide) (fun i => rfl)
  exact ⟨h.1.2.1, h.1.2.2 "ExponentPushToken[b]" (by decide), h.2.2.1,
    h.2.2.2⟩

/-! ## Claim C8 — batched signed-URL generation with partial-failure
tolerance -/

theorem generateChunk_cons_ok (sign : String → Except String String)
    {p u : String} (hp : sign p = .ok u) (ps : List String) :
    generateChunk sign (p :: ps) = (p, u) :: generateChunk sign ps := by
  simp only [generateChunk, hp]

theorem generateChunk_cons_error (sign : String → Except String String)
    {p e : String} (hp : sign p = .error e) (ps : List String) :
    generateChunk sign (p :: ps) = generateChunk sign ps := by
  simp only [generateChunk, hp]

theorem lookup_cons_ne {β : Type} (p q : String) (v : β)
    (l : List (String × β)) (h : ¬ q = p) :
    List.lookup p ((q, v) :: l) = List.lookup p l := by
  have hbeq : (p == q) = false := by
    simp only [beq_eq_false_iff_ne]
    intro hh
    exact h hh.symm
  simp [List.lookup, hbeq]

theorem lookup_cons_self {β : Type} (p : String) (v : β)
    (l : List (String × β)) :
    List.lookup p ((p, v) :: l) = some v := by
  simp [List.lookup]

theorem generateChunk_append (sign : String → Except String String)
    (a b : List String) :
    generateChunk sign (a ++ b) = generateChunk sign a ++ generateChunk sign b := by
  induction a with
  | nil => rfl
  | cons p rest ih =>
    rw [List.cons_append]
    cases hp : sign p with
    | ok u =>
      rw [generateChunk_cons_ok sign hp, generateChunk_cons_ok sign hp, ih,
        List.cons_append]
    | error e =>
      rw [generateChunk_cons_error sign hp, generateChunk_cons_error sign hp,
        ih]

/-- The chunked generator is the plain per-path generator: chunking only
bounds sub-batch size. -/
theorem generateSignedUrlsBatch_eq (sign : String → Except String String)
    (l : List String) :
    generateSignedUrlsBatch sign l = generateChunk sign l := by
  unfold generateSignedUrlsBatch
  have h : ∀ cs : List (List String),
      ((cs.map (generateChunk sign)).flatten) = generateChunk sign cs.flatten := by
    intro cs
    induction cs with
    | nil => rfl
    | cons c rest ih =>
      simp only [List.map_cons, List.flatten_cons, ih, generateChunk_append]
  rw [h, chunkList_flatten 20 (by omega)]

theorem lookup_generateChunk_error (sign : String → Except String String)
    {p : String} {e : String} (he : sign p = .error e) :
    ∀ l, List.lookup p (generateChunk sign l) = none := by
  intro l
  induction l with
  | nil => rfl
  | cons q rest ih =>
    cases hq : sign q with
    | error e2 => rw [generateChunk_cons_error sign hq]; exact ih
    | ok u =>
      rw [generateChunk_cons_ok sign hq]
      by_cases hpq : q = p
      · rw [hpq] at hq
        rw [hq] at he
        exact absurd he (by simp)
      · rw [lookup_cons_ne p q u _ hpq]
        exact ih

theorem lookup_generateChunk_ok (sign : String → Except String String)
    {p u : String} (hp : sign p = .ok u) :
    ∀ l, p ∈ l → List.lookup p (generateChunk sign l) = some u := by
  intro l
  induction l with
  | nil => intro h; simp at h
  | cons q rest ih =>
    intro hmem
    by_cases hpq : q = p
    · subst hpq
      rw [generateChunk_cons_ok sign hp, lookup_cons_self]
    · have hmem2 : p ∈ rest := by
        rcases List.mem_cons.mp hmem with h | h
        · exact absurd h.symm hpq
        · exact h
      cases hq : sign q with
      | error e2 => rw [generateChunk_cons_error sign hq]; exact ih hmem2
      | ok v =>
        rw [generateChunk_cons_ok sign hq, lookup_cons_ne p q v _ hpq]
        exact ih hmem2

theorem generateChunk_length (sign : String → Except String String)
    (l : List String) :
    (generateChunk sign l).length =
      (l.filter (fun p => (sign p).toOption.isSome)).length := by
  induction l with
  | nil => rfl
  | cons p rest ih =>
    unfold generateChunk
    cases hp : sign p <;> simp [List.filter_cons, hp, ih, Except.toOption]

theorem length_filterMap_eq_filter (f : α → Option β) (l : List α) :
    (l.filterMap f).length = (l.filter (fun a => (f a).isSome)).length := by
  induction l with
  | nil => rfl
  | cons a rest ih =>
    cases hfa : f a <;> simp [List.filterMap_cons, List.filter_cons, hfa, ih]

theorem lookup_cachedList_none (en : SignEnv) {p : String}
    (hp : urlCacheFresh en p = none) (paths : List String) :
    List.lookup p (paths.filterMap
      (fun q => (urlCacheFresh en q).map (fun u => (q, u)))) = none := by
  induction paths with
  | nil => rfl
  | cons q rest ih =>
    cases hq : urlCacheFresh en q with
    | none =>
      rw [List.filterMap_cons_none (by rw [hq]; rfl)]
      exact ih
    | some u =>
      rw [List.filterMap_cons_some (by rw [hq]; rfl)]
      by_cases hpq : q = p
      · subst hpq
        rw [hq] at hp
        exact absurd hp (by simp)
      · rw [lookup_cons_ne p q u _ hpq]
        exact ih

theorem lookup_cachedList_some (en : SignEnv) {p u : String}
    (hp : urlCacheFresh en p = some u) (paths : List String)
    (hmem : p ∈ paths) :
    List.lookup p (paths.filterMap
      (fun q => (urlCacheFresh en q).map (fun v => (q, v)))) = some u := by
  induction paths with
  | nil => simp at hmem
  | cons q rest ih =>
    by_cases hpq : q = p
    · subst hpq
      rw [List.filterMap_cons_some (by rw [hp]; rfl)]
      rw [lookup_cons_self]
    · have hmem2 : p ∈ rest := by
        rcases List.mem_cons.mp hmem with h | h
        · exact absurd h.symm hpq
        · exact h
      cases hq : urlCacheFresh en q with
      | none =>
        rw [List.filterMap_cons_none (by rw [hq]; rfl)]
        exact ih hmem2
      | some v =>
        rw [List.filterMap_cons_some (by rw [hq]; rfl)]
        rw [lookup_cons_ne p q v _ hpq]
        exact ih hmem2

/-- C8: under valid inputs the batch generator returns normally; every
fresh-cached path and every successfully generated path appears in the
returned map with its URL, a path whose generation fails is absent (its
siblings unaffected), the result reports `cached_count`,
`generated_count` and a cache hit rate, and generation proceeds in
sub-batches of at most 20 paths. -/
theorem batch_url_partial_failure (en : SignEnv) (paths : List String)
    (expiresIn : Nat) (hne : paths ≠ []) (hlen : paths.length ≤ 100)
    (hexp : expiresIn ≤ 86400) (hnodup : paths.Nodup) :
    ∃ v, batchGenerateSignedUrls en paths expiresIn false = .ok v ∧
      (∀ p ∈ paths, urlCacheFresh en p = none →
        (∀ e, en.sign p = .error e → List.lookup p v.urls = none) ∧
        (∀ u, en.sign p = .ok u → List.lookup p v.urls = some u)) ∧
      (∀ p ∈ paths, ∀ u, urlCacheFresh en p = some u →
        List.lookup p v.urls = some u) ∧
      v.cached_count =
        (paths.filter (fun p => (urlCacheFresh en p).isSome)).length ∧
      v.generated_count =
        ((paths.filter (fun p => (urlCacheFresh en p).isNone)).filter
          (fun p => (en.sign p).toOption.isSome)).length ∧
      v.cache_hit_rate = jsRoundPct v.cached_count paths.length ∧
      (∀ c ∈ chunkList 20
          (paths.filter (fun p => (urlCacheFresh en p).isNone)),
        c.length ≤ 20) := by
  have _ := hnodup
  have hres : batchGenerateSignedUrls en paths expiresIn false =
      .ok { urls :=
              (paths.filterMap
                (fun q => (urlCacheFresh en q).map (fun u => (q, u)))) ++
              generateSignedUrlsBatch en.sign
                (paths.filter (fun p => (urlCacheFresh en p).isNone))
            cached_count := (paths.filterMap
              (fun q => (urlCacheFresh en q).map (fun u => (q, u)))).length
            generated_count := (generateSignedUrlsBatch en.sign
              (paths.filter (fun p => (urlCacheFresh en p).isNone))).length
            total_count := ((paths.filterMap
                (fun q => (urlCacheFresh en q).map (fun u => (q, u)))) ++
              generateSignedUrlsBatch en.sign
                (paths.filter (fun p => (urlCacheFresh en p).isNone))).length
            cache_hit_rate := jsRoundPct (paths.filterMap
              (fun q => (urlCacheFresh en q).map (fun u => (q, u)))).length
              paths.length
            expires_in := expiresIn } := by
    unfold batchGenerateSignedUrls
    rw [if_neg (by simp [hne]), if_neg (by omega), if_neg (by omega)]
    rfl
  refine ⟨_, hres, ?_, ?_, ?_, ?_, ?_, ?_⟩
  · intro p hmem hfresh
    constructor
    · intro e he
      rw [List.lookup_append, lookup_cachedList_none en hfresh paths,
        generateSignedUrlsBatch_eq, lookup_generateChunk_error en.sign he]
      rfl
    · intro u hu
      rw [List.lookup_append, lookup_cachedList_none en hfresh paths,
        generateSignedUrlsBatch_eq, lookup_generateChunk_ok en.sign hu _
          (List.mem_filter.mpr ⟨hmem, by simp [hfresh]⟩)]
      rfl
  · intro p hmem u hu
    rw [List.lookup_append, lookup_cachedList_some en hu paths hmem]
    rfl
  · dsimp only
    have h := length_filterMap_eq_filter
      (fun q => (urlCacheFresh en q).map (fun u => (q, u))) paths
    simpa using h
  · dsimp only
    rw [generateSignedUrlsBatch_eq, generateChunk_length]
  · rfl
  · exact chunkList_mem_length_le 20 _

/-- A 25-path batch whose 13th path makes the storage provider throw, with
an empty URL cache. -/
def failingSignEnv : SignEnv :=
  { sign := fun p => if p = "ev/p13.jpg" then .error "storage exception"
      else .ok ("https://signed/" ++ p)
    urlKv := []
    now := 0 }

def paths25 : List String :=
  ["ev/p1.jpg", "ev/p2.jpg", "ev/p3.jpg", "ev/p4.jpg", "ev/p5.jpg",
   "ev/p6.jpg", "ev/p7.jpg", "ev/p8.jpg", "ev/p9.jpg", "ev/p10.jpg",
   "ev/p11.jpg", "ev/p12.jpg", "ev/p13.jpg", "ev/p14.jpg", "ev/p15.jpg",
   "ev/p16.jpg", "ev/p17.jpg", "ev/p18.jpg", "ev/p19.jpg", "ev/p20.jpg",
   "ev/p21.jpg", "ev/p22.jpg", "ev/p23.jpg", "ev/p24.jpg", "ev/p25.jpg"]

/-- Witness for C8: over the 25-path batch the call returns normally, path
13 is absent from the map, path 12 is present, and the result reports 0
cached and 24 generated with a 0% hit rate. -/
theorem batch_url_partial_failure_witness :
    ∃ v, batchGenerateSignedUrls failingSignEnv paths25 3600 false = .ok v ∧
      List.lookup "ev/p13.jpg" v.urls = none ∧
      List.lookup "ev/p12.jpg" v.urls = some "https://signed/ev/p12.jpg" ∧
      v.cached_count = 0 ∧ v.generated_count = 24 ∧ v.cache_hit_rate = 0 := by
  obtain ⟨v, hv, h1, _h2, h3, h4, h5, _h6⟩ :=
    batch_url_partial_failure failingSignEnv paths25 3600 (by decide)
      (by decide) (by decide) (by decide)
  refine ⟨v, hv, ?_, ?_, ?_, ?_, ?_⟩
  · exact (h1 "ev/p13.jpg" (by decide) (by decide)).1 "storage exception"
      (by decide)
  · exact (h1 "ev/p12.jpg" (by decide) (by decide)).2
      "https://signed/ev/p12.jpg" (by decide)
  · rw [h3]; decide
  · rw [h4]; decide
  · rw [h5, h3]; decide

/-! ## Claim C2 — stale-on-error fallback -/

/-- An event-level cache record whose logical expiry has long passed. -/
def staleKvEntry : CacheRec PhotoPayload :=
  { value := samplePayload, cached_at := 5, expires_at := 10 }

/-- Photo-URL environment at `now = 100000`: the relational store is down
and the event-level cache holds one (expired) previous entry under the
anonymous-role key. -/
def stalePhotoEnv : PhotoUrlEnv :=
  { eventRow := .ok sampleEvent
    photoTable := .error "db down"
    eventKv := [(photoCacheKey "e1" "most_liked" "anonymous" "moderated" 1 50,
      staleKvEntry)]
    signEnv := sampleSignEnv
    extractPath := fun _ => none
    urlLooksExpired := fun _ => false
    now := 100000 }

/-- C2 counterexample: the event-photo-URL read has a previous cache entry
under its exact key, the backing store raises during miss regeneration, and
the read nevertheless propagates the error instead of returning that entry
tagged stale — the claimed stale fallback does not exist in this layer. -/
theorem photo_stale_fallback_counterexample :
    kvLookup stalePhotoEnv.eventKv
      (photoCacheKey "e1" "most_liked" "anonymous" "moderated" 1 50) =
      some staleKvEntry ∧
    getEventPhotoUrls stalePhotoEnv "e1" 1 50 false 3600 none "most_liked" =
      .error "db down" := by
  decide

/-- C2 amended: the stale fallback holds for the participants cache layer —
on a backing-store failure during miss handling, any previous entry under
the key (even expired) is served tagged `stale=true` with a warning, and
the error propagates only when no entry exists.  The event-photo-URL layer
has no stale fallback: a store failure after a cache miss always
propagates, whatever the cache holds. -/
theorem stale_fallback_amended {α : Type} (kv : KvStore α) (now : Nat)
    (eventId : String) (page limit : Nat) (forceRefresh : Bool) (e : String)
    (heid : eventId ≠ "") (hpage : 1 ≤ page) (hlim1 : 1 ≤ limit)
    (hlim2 : limit ≤ 100)
    (hmiss : freshCacheHit kv (participantsCacheKey eventId page limit) now
      forceRefresh = none) :
    (∀ r : CacheRec α,
      kvLookup kv (participantsCacheKey eventId page limit) = some r →
      getEventParticipants kv (.error e) now eventId page limit forceRefresh =
        .ok { value := r.value, cached := true, stale := true
              warning :=
                some "Serving cached data due to temporary database issues"
              cache_source := "stale_redis" }) ∧
    (kvLookup kv (participantsCacheKey eventId page limit) = none →
      getEventParticipants kv (.error e) now eventId page limit forceRefresh =
        .error e) ∧
    (∀ (env : PhotoUrlEnv) (ev : EventRow) (eid : String)
        (p2 l2 exp2 : Nat) (u : Option String) (sortBy : String),
      env.eventRow = .ok ev → env.photoTable = .error e →
      photoEventCacheHit env (photoCacheKey eid (validatedSort sortBy)
        (userRoleOf ev u) (moderationModeOf ev) p2 l2) false = none →
      getEventPhotoUrls env eid p2 l2 false exp2 u sortBy = .error e) := by
  have hcond : (decide (eventId = "") || decide (page < 1) ||
      decide (limit < 1) || decide (limit > 100)) = false := by
    simp [heid]
    omega
  refine ⟨?_, ?_, ?_⟩
  · intro r hr
    unfold getEventParticipants
    rw [if_neg (by rw [hcond]; simp)]
    simp only [hmiss, hr]
  · intro hnone
    unfold getEventParticipants
    rw [if_neg (by rw [hcond]; simp)]
    simp only [hmiss, hnone]
  · intro env ev eid p2 l2 exp2 u sortBy hev hpt hhit
    unfold getEventPhotoUrls
    rw [hev]
    simp only [hhit, hpt]

/-- A participants cache holding one expired entry for event `e1`. -/
def stalePartKv : KvStore Nat :=
  [(participantsCacheKey "e1" 1 20,
    { value := 42, cached_at := 5, expires_at := 10 })]

/-- Witness for C2: the participants read serves the expired entry tagged
stale when the store is down; with an empty cache the same read propagates
the error; the photo-URL read propagates the error despite its cached
entry. -/
theorem stale_fallback_amended_witness :
    getEventParticipants stalePartKv (.error "db down") 100000 "e1" 1 20
      false =
      .ok { value := 42, cached := true, stale := true
            warning :=
              some "Serving cached data due to temporary database issues"
            cache_source := "stale_redis" } ∧
    getEventParticipants ([] : KvStore Nat) (.error "db down") 100000 "e1"
      1 20 false = .error "db down" ∧
    getEventPhotoUrls stalePhotoEnv "e1" 1 50 false 3600 none "most_liked" =
      .error "db down" := by
  have h1 := stale_fallback_amended stalePartKv 100000 "e1" 1 20 false
    "db down" (by decide) (by decide) (by decide) (by decide) (by decide)
  have h2 := stale_fallback_amended ([] : KvStore Nat) 100000 "e1" 1 20 false
    "db down" (by decide) (by decide) (by decide) (by decide) (by decide)
  exact ⟨h1.1 { value := 42, cached_at := 5, expires_at := 10 } (by decide),
    h2.2.1 (by decide),
    h1.2.2 stalePhotoEnv sampleEvent "e1" 1 50 3600 none "most_liked" rfl rfl
      (by decide)⟩

end PartySnap
